import Mathlib

/-!
Verification development for the "sales-helper" product-intelligence core:
query parsing and fuzzy ranking (src/search.py), description decoding
(src/enrichment.py) and price precedence resolution (src/pricing.py).

The Python code is shallowly embedded: pure functions become Lean functions,
floats holding prices and scores become rationals, pandas NaN cells become
Option values, and the regular expressions of the source are run by a small
backtracking engine (`reRun`) that mirrors Python `re` leftmost/greedy
semantics on the ASCII inputs this program handles.  The two rapidfuzz
similarity functions (`fuzz.token_set_ratio`, `fuzz.partial_ratio`) are
third-party library calls, not code of this repository; they are passed in as
abstract parameters `tsr`/`pr`, so every theorem about scoring holds for any
similarity function.
-/

set_option maxRecDepth 16000
set_option maxHeartbeats 3200000

/-- Python `str.upper()` restricted to ASCII, which is all this catalog data
uses.  (Char-list based so that it reduces inside the kernel.) -/
def upperStr (s : String) : String := String.mk (s.toList.map Char.toUpper)

/-- Prefix test on character lists: does the second list start with the first? -/
def isSubAt : List Char → List Char → Bool
  | [], _ => true
  | _ :: _, [] => false
  | c :: cs, d :: ds => c == d && isSubAt cs ds

/-- Is `n` a contiguous infix of `h`?  Models Python `n in h` for strings. -/
def listInfix (n : List Char) : List Char → Bool
  | [] => n.isEmpty
  | c :: t => isSubAt n (c :: t) || listInfix n t

/-- Python substring containment `n in h`. -/
def containsSub (h n : String) : Bool := listInfix n.toList h.toList

/-- Maximal runs of characters satisfying `p`; models `re.findall` on a
single character class such as `[A-Z0-9]+`. -/
def charRunsAux (p : Char → Bool) : List Char → List Char → List String
  | cur, [] => if cur.isEmpty then [] else [String.mk cur.reverse]
  | cur, c :: rest =>
      if p c then charRunsAux p (c :: cur) rest
      else if cur.isEmpty then charRunsAux p [] rest
      else String.mk cur.reverse :: charRunsAux p [] rest

/-- `re.findall(r'[A-Z0-9]+', s)`. -/
def alnumRuns (s : String) : List String :=
  charRunsAux (fun c => (('A' ≤ c && c ≤ 'Z') || ('0' ≤ c && c ≤ '9'))) [] s.toList

/-- Python ASCII whitespace (`\s`, and what `str.strip()` removes here). -/
def pySpace (c : Char) : Bool :=
  c == ' ' || c == '\t' || c == '\n' || c == '\r' || c == '\x0b' || c == '\x0c'

/-- Python `str.strip()`. -/
def pyStrip (s : String) : String :=
  String.mk (((s.toList.dropWhile pySpace).reverse.dropWhile pySpace).reverse)

/-- Drop the first `n` characters (Python `s[n:]` for ASCII strings). -/
def strDropN (s : String) (n : Nat) : String := String.mk (s.toList.drop n)

/-- Python `s.startswith(p)`. -/
def strStartsWith (s p : String) : Bool := isSubAt p.toList s.toList

/-- Replace all non-overlapping occurrences of a non-empty pattern, left to
right (Python `str.replace`). -/
def replaceAux (f t : List Char) : Nat → List Char → List Char
  | 0, l => l
  | fuel + 1, l =>
      if isSubAt f l then t ++ replaceAux f t fuel (l.drop f.length)
      else match l with
           | [] => []
           | c :: r => c :: replaceAux f t fuel r

/-- Python `s.replace(f, t)` (only used with non-empty `f`). -/
def replaceSub (s f t : String) : String :=
  String.mk (replaceAux f.toList t.toList (s.toList.length + 1) s.toList)

/-- Python `sep.join(parts)`. -/
def joinSep (sep : String) : List String → String
  | [] => ""
  | [x] => x
  | x :: xs => x ++ sep ++ joinSep sep xs

/-- Split on single spaces (`"1 16"` → `["1", "16"]`). -/
def splitOnSpace (s : String) : List String :=
  charRunsAux (fun c => c != ' ') [] s.toList

/-- Stable insertion: `x` is placed after every `y` with `le y x`.  Folding
this over a list from the left is exactly Python's stable `list.sort`. -/
def insertLe (le : α → α → Bool) (x : α) : List α → List α
  | [] => [x]
  | y :: ys => if le y x then y :: insertLe le x ys else x :: y :: ys

/-- Stable sort (insertion sort), processing elements in list order. -/
def isortAux (le : α → α → Bool) : List α → List α → List α
  | acc, [] => acc
  | acc, x :: xs => isortAux le (insertLe le x acc) xs

/-- Stable sort by a boolean `le`; models Python `list.sort`/`sorted`. -/
def isortBy (le : α → α → Bool) (l : List α) : List α := isortAux le [] l

theorem mem_insertLe (le : α → α → Bool) (x : α) :
    ∀ (l : List α) (a : α), a ∈ insertLe le x l ↔ a = x ∨ a ∈ l := by
  intro l
  induction l with
  | nil => intro a; simp [insertLe]
  | cons y ys ih =>
      intro a
      simp only [insertLe]
      cases h : le y x with
      | false =>
          simp only [Bool.false_eq_true, if_false, List.mem_cons]
      | true =>
          simp only [if_true, List.mem_cons, ih]
          tauto

theorem mem_isortAux (le : α → α → Bool) :
    ∀ (l acc : List α) (a : α), a ∈ isortAux le acc l ↔ a ∈ acc ∨ a ∈ l := by
  intro l
  induction l with
  | nil => intro acc a; simp [isortAux]
  | cons x xs ih =>
      intro acc a
      simp only [isortAux]
      rw [ih, mem_insertLe]
      simp [List.mem_cons]
      tauto

theorem mem_isortBy (le : α → α → Bool) (l : List α) (a : α) :
    a ∈ isortBy le l ↔ a ∈ l := by
  unfold isortBy
  rw [mem_isortAux]
  simp

theorem pairwise_insertLe (le : α → α → Bool)
    (htot : ∀ a b, le a b = false → le b a = true)
    (htrans : ∀ a b c, le a b = true → le b c = true → le a c = true) :
    ∀ (l : List α) (x : α), l.Pairwise (fun a b => le a b = true) →
      (insertLe le x l).Pairwise (fun a b => le a b = true) := by
  intro l
  induction l with
  | nil => intro x _; simp [insertLe]
  | cons y ys ih =>
      intro x hp
      rcases List.pairwise_cons.mp hp with ⟨hy, hys⟩
      simp only [insertLe]
      cases h : le y x with
      | true =>
          simp only [if_true]
          refine List.pairwise_cons.mpr ⟨?_, ih x hys⟩
          intro a ha
          rcases (mem_insertLe le x ys a).mp ha with rfl | ha
          · exact h
          · exact hy a ha
      | false =>
          simp only [Bool.false_eq_true, if_false]
          refine List.pairwise_cons.mpr ⟨?_, hp⟩
          intro a ha
          rcases List.mem_cons.mp ha with h1 | ha
          · rw [h1]; exact htot y x h
          · exact htrans x y a (htot y x h) (hy a ha)

theorem pairwise_isortAux (le : α → α → Bool)
    (htot : ∀ a b, le a b = false → le b a = true)
    (htrans : ∀ a b c, le a b = true → le b c = true → le a c = true) :
    ∀ (l acc : List α), acc.Pairwise (fun a b => le a b = true) →
      (isortAux le acc l).Pairwise (fun a b => le a b = true) := by
  intro l
  induction l with
  | nil => intro acc h; simpa [isortAux] using h
  | cons x xs ih =>
      intro acc h
      simp only [isortAux]
      exact ih _ (pairwise_insertLe le htot htrans acc x h)

theorem pairwise_isortBy (le : α → α → Bool)
    (htot : ∀ a b, le a b = false → le b a = true)
    (htrans : ∀ a b c, le a b = true → le b c = true → le a c = true)
    (l : List α) :
    (isortBy le l).Pairwise (fun a b => le a b = true) :=
  pairwise_isortAux le htot htrans l [] (List.Pairwise.nil)

/-! ### A small backtracking regular-expression engine

Candidate matches are produced in Python `re` backtracking order (leftmost
start, alternatives in written order, quantifiers greedy), so taking the head
of the candidate list reproduces `re.match` / `re.search`.  Recursion is
structural on an explicit fuel, so every run reduces in the kernel. -/

/-- Regular-expression syntax used by the embedded patterns.  `cls` is a
character class, `wb` the word boundary `\b`, `eos` the anchor `$`,
`grp n a` the `n`-th capturing group. -/
inductive RE where
  | eps
  | lit (cs : List Char)
  | cls (p : Char → Bool)
  | seq (a b : RE)
  | alt (a b : RE)
  | star (a : RE)
  | wb
  | eos
  | grp (n : Nat) (a : RE)

/-- One recorded capture: group number, start index, end index. -/
def ReCap : Type := Nat × Nat × Nat

/-- Python `\w` (ASCII range, which covers this program's data). -/
def wordChar (c : Char) : Bool := c.isAlphanum || c == '_'

/-- Is the character at index `i` (if any) a word character? -/
def isWordAt (s : List Char) (i : Nat) : Bool :=
  match s[i]? with
  | some c => wordChar c
  | none => false

/-- Word boundary `\b` at position `i` of `s`. -/
def wordBoundary (s : List Char) (i : Nat) : Bool :=
  (if i = 0 then false else isWordAt s (i - 1)) != isWordAt s i

/-- All ways a regex can match starting at index `i`, as end positions with
captures, in Python backtracking priority order. -/
def reRun (s : List Char) : Nat → RE → Nat → List ReCap → List (Nat × List ReCap)
  | 0, _, _, _ => []
  | f + 1, re, i, cp =>
      match re with
      | .eps => [(i, cp)]
      | .lit cs => if isSubAt cs (s.drop i) then [(i + cs.length, cp)] else []
      | .cls p =>
          match s[i]? with
          | some c => if p c then [(i + 1, cp)] else []
          | none => []
      | .seq a b => (reRun s f a i cp).flatMap (fun r => reRun s f b r.1 r.2)
      | .alt a b => reRun s f a i cp ++ reRun s f b i cp
      | .star a =>
          ((reRun s f a i cp).filter (fun r => i < r.1)).flatMap
            (fun r => reRun s f (.star a) r.1 r.2) ++ [(i, cp)]
      | .wb => if wordBoundary s i then [(i, cp)] else []
      | .eos => if i = s.length then [(i, cp)] else []
      | .grp n a => (reRun s f a i cp).map (fun r => (r.1, (n, i, r.1) :: r.2))

/-- Fuel that is always sufficient for the short patterns embedded here. -/
def reFuel (s : List Char) : Nat := (s.length + 4) * 64

/-- `re.match` at position 0: the first (highest-priority) match, if any. -/
def reMatch0 (re : RE) (s : List Char) : Option (Nat × List ReCap) :=
  (reRun s (reFuel s) re 0 []).head?

/-- `re.search` from index `i` with countdown fuel: leftmost match. -/
def reSearchAux (re : RE) (s : List Char) : Nat → Nat → Option (Nat × Nat × List ReCap)
  | _, 0 => none
  | i, f + 1 =>
      if i > s.length then none
      else
        match (reRun s (reFuel s) re i []).head? with
        | some r => some (i, r.1, r.2)
        | none => reSearchAux re s (i + 1) f

/-- `re.search`: leftmost match as (start, end, captures). -/
def reSearch (re : RE) (s : List Char) : Option (Nat × Nat × List ReCap) :=
  reSearchAux re s 0 (s.length + 1)

/-- `re.finditer` from index `i`: successive non-overlapping leftmost matches. -/
def reFindAux (re : RE) (s : List Char) : Nat → Nat → List (Nat × Nat × List ReCap)
  | _, 0 => []
  | i, f + 1 =>
      match reSearchAux re s i (s.length + 1 - i) with
      | some r =>
          if i < r.2.1 then r :: reFindAux re s r.2.1 f
          else r :: reFindAux re s (r.2.1 + 1) f
      | none => []

/-- `re.finditer` over the whole string. -/
def reFindAll (re : RE) (s : List Char) : List (Nat × Nat × List ReCap) :=
  reFindAux re s 0 (s.length + 2)

/-- `re.sub` helper: copy text up to each match, splice in the replacement. -/
def reSubAux (re : RE) (s : List Char) (repl : List Char → List ReCap → List Char) :
    Nat → Nat → List Char
  | i, 0 => s.drop i
  | i, f + 1 =>
      match reSearchAux re s i (s.length + 1 - i) with
      | some r =>
          (s.drop i).take (r.1 - i) ++ repl s r.2.2 ++
            (if r.1 < r.2.1 then reSubAux re s repl r.2.1 f
             else match s[r.2.1]? with
                  | some c => c :: reSubAux re s repl (r.2.1 + 1) f
                  | none => [])
      | none => s.drop i

/-- `re.sub`: replace every non-overlapping match. -/
def reSubAll (re : RE) (repl : List Char → List ReCap → List Char) (t : String) : String :=
  String.mk (reSubAux re t.toList repl 0 (t.toList.length + 2))

/-- Text of capturing group `n` (Python `m.group(n)`), or `""` if unset. -/
def capS (s : List Char) (cp : List ReCap) (n : Nat) : String :=
  match cp.find? (fun c => c.1 == n) with
  | some c => String.mk ((s.drop c.2.1).take (c.2.2 - c.2.1))
  | none => ""

/-- `a?` (greedy). -/
def reOpt (a : RE) : RE := .alt a .eps

/-- `a+` (greedy). -/
def rePlus (a : RE) : RE := .seq a (.star a)

/-- Literal string. -/
def reLit (t : String) : RE := .lit t.toList

/-- `\d`. -/
def reDigit : RE := .cls Char.isDigit

/-- `\s`. -/
def reSpaceC : RE := .cls pySpace

/-- `.` (any character but newline). -/
def reAnyC : RE := .cls (fun c => c != '\n')

/-- `a{n}`. -/
def reRepN : RE → Nat → RE
  | _, 0 => .eps
  | a, n + 1 => .seq a (reRepN a n)

/-- `a{0,n}` (greedy). -/
def reUpTo : RE → Nat → RE
  | _, 0 => .eps
  | a, n + 1 => reOpt (.seq a (reUpTo a n))

/-- `a{lo,hi}` (greedy). -/
def reRep (a : RE) (lo hi : Nat) : RE := .seq (reRepN a lo) (reUpTo a (hi - lo))

/-- Chain a list of regexes in sequence. -/
def reSeq (l : List RE) : RE := l.foldr RE.seq RE.eps

/-- Ordered alternation of a list of regexes. -/
def reAltL (l : List RE) : RE := l.foldr RE.alt (RE.cls (fun _ => false))

/-! ### Embedding of `src/search.py` -/

/-- `\b...\b`-wrapped literal word. -/
def reWordLit (t : String) : RE := reSeq [.wb, reLit t, .wb]

/-- Two literals separated by `\s*`, word-bounded (e.g. `\bDUAL\s*SHIELD\b`). -/
def reSpacedLit (a b : String) : RE :=
  reSeq [.wb, reLit a, .star reSpaceC, reLit b, .wb]

/-- Two literals separated by an optional one-character separator, word-bounded
(e.g. `\b70S[-.]?6\b`, `\bSHIELD[- ]?BRITE\b`). -/
def reOptSepLit (a b : String) (seps : List Char) : RE :=
  reSeq [.wb, reLit a, reOpt (.cls (fun c => seps.contains c)), reLit b, .wb]

/-- Decimal diameter pattern `\b0?\.(\d{3})\b` of `_DIAMETER_PATTERNS`. -/
def pDot3 : RE :=
  reSeq [.wb, reOpt (reLit "0"), reLit ".", .grp 1 (reRepN reDigit 3), .wb]

/-- Fraction diameter pattern `\b(\d+)/(\d+)\b` of `_DIAMETER_PATTERNS`. -/
def pFrac : RE :=
  reSeq [.wb, .grp 1 (rePlus reDigit), reLit "/", .grp 2 (rePlus reDigit), .wb]

/-- `_PKG_WEIGHT_PATTERN = \b(\d+)\s*(?:#|lbs?|lb)\b` (case-insensitive; it is
run on the uppercased text, which is equivalent for this ASCII pattern). -/
def pPkgW : RE :=
  reSeq [.wb, .grp 1 (rePlus reDigit), .star reSpaceC,
    reAltL [reLit "#", .seq (reLit "LB") (reOpt (reLit "S")), reLit "LB"], .wb]

/-- `_PKG_TYPE_PATTERN` (closed vocabulary of package shapes). -/
def pPkgT : RE :=
  reSeq [.wb, .grp 1 (reAltL [reLit "SPOOL", reLit "DRUM", reLit "COIL",
    reLit "BASKET", reLit "CARTON", reLit "TUBE", reLit "HERMETIC",
    reLit "VACPAK", reLit "PALLET", reLit "BULK", reLit "MINI"]), .wb]

/-- `_ALLOY_PATTERN = \b(?:ER|E)?(\d{2,4}[A-Z]?S?-?\d{0,3}[A-Z]{0,3})\b`. -/
def pAlloy : RE :=
  reSeq [.wb, reOpt (.alt (reLit "ER") (reLit "E")),
    .grp 1 (reSeq [reRep reDigit 2 4, reOpt (.cls Char.isAlpha),
      reOpt (reLit "S"), reOpt (reLit "-"), reRep reDigit 0 3,
      reRep (.cls Char.isAlpha) 0 3]), .wb]

/-- Normalization substitution `(\d)/(\d+)` → `\1 \2` (no word bounds). -/
def pFracSub : RE :=
  reSeq [.grp 1 reDigit, reLit "/", .grp 2 (rePlus reDigit)]

/-- `_EXPANSIONS`: the ordered abbreviation-rewriting table, patterns written
against the uppercased query string. -/
def EXPANSIONS : List (RE × String) := [
  (reWordLit "S6", "70S 6"),
  (reWordLit "S-6", "70S 6"),
  (reWordLit "S3", "70S 3"),
  (reWordLit "S-3", "70S 3"),
  (reOptSepLit "ER70S" "6" ['-', '.'], "70S 6"),
  (reOptSepLit "70S" "6" ['-', '.'], "70S 6"),
  (reOptSepLit "ER70S" "3" ['-', '.'], "70S 3"),
  (reOptSepLit "70S" "3" ['-', '.'], "70S 3"),
  (reSpacedLit "DUAL" "SHIELD", "DS"),
  (reWordLit "CORESHIELD", "CS"),
  (reSpacedLit "ATOM" "ARC", "AA"),
  (reWordLit "SPOOLARC", "SA"),
  (reWordLit "SUREWELD", "SUREWELD"),
  (reWordLit "AUTOSHIELD", "AS"),
  (reWordLit "COREWELD", "CW"),
  (reWordLit "ALCOTEC", "ER"),
  (reOptSepLit "SHIELD" "BRITE" ['-', ' '], "SB"),
  (reWordLit "EXATON", "EXATON"),
  (reWordLit "SPRAYMASTER", "SPRAY MASTER"),
  (reSpacedLit "SPRAY" "MASTER", "SPRAY MASTER"),
  (reSpacedLit "TIG" "ROD", "TIG"),
  (reSpacedLit "TIG" "WIRE", "TIG"),
  (reSpacedLit "MIG" "WIRE", "WELD"),
  (reWordLit "STICK", "ELECTRODE"),
  (reWordLit "SMAW", "ELECTRODE"),
  (reWordLit "FCAW", "DS"),
  (reWordLit "GMAW", "WELD"),
  (reOptSepLit "FLUX" "CORE" ['-', ' '], "DS"),
  (reOptSepLit "SELF" "SHIELD" ['-', ' '], "CS"),
  (reWordLit "REBEL", "REBEL"),
  (reSpacedLit "ROBUST" "FEED", "ROBUST FEED"),
  (reWordLit "CUTMASTER", "CUTMASTER"),
  (reWordLit "PURUS", "PURUS"),
  (reWordLit "OKS", "OK"),
  (reWordLit "RUTILIA", "SUREWELD")]

/-- `_KNOWN_ALLOYS` (set membership only, so a list is an adequate model). -/
def KNOWN_ALLOYS : List String := [
  "70S6", "70S-6", "70S3", "70S-3", "80SD2", "80S-D2",
  "308L", "308", "309L", "309", "316L", "316", "317L",
  "7018", "7014", "7024", "6010", "6011", "6013",
  "4043", "5356", "5183", "5556", "4047", "4145",
  "2209", "2594", "71T1", "71T9", "71T8", "71T11",
  "80NI1", "80S"]

/-- `_STOP_WORDS`. -/
def STOP_WORDS : List String :=
  ["WIRE", "ROD", "FILLER", "WELDING", "THE", "A", "AN", "FOR", "AND", "WITH", "OF"]

/-- `ParsedQuery`: the structured representation a query is parsed into. -/
structure ParsedQuery where
  raw : String
  diameters : List String
  alloys : List String
  pkg_weights : List String
  pkg_types : List String
  tokens : List String
  normalized : String

/-- `parse_query`: extract diameters/packaging from the original text, then
normalize (uppercase + `_EXPANSIONS` + diameter/fraction canonicalization),
then extract alloys and stop-word-filtered tokens. -/
def parse_query (text : String) : ParsedQuery :=
  let working := pyStrip text
  if working = "" then ⟨text, [], [], [], [], [], ""⟩ else
  let w := working.toList
  let diameters :=
    (reFindAll pDot3 w).map (fun r => capS w r.2.2 1) ++
    (reFindAll pFrac w).map (fun r => capS w r.2.2 1 ++ " " ++ capS w r.2.2 2)
  let wu := (upperStr working).toList
  let pkg_weights := (reFindAll pPkgW wu).map (fun r => capS wu r.2.2 1)
  let pkg_types := (reFindAll pPkgT wu).map (fun r => upperStr (capS wu r.2.2 1))
  let norm0 := pyStrip (upperStr working)
  let norm1 := EXPANSIONS.foldl (fun n p => reSubAll p.1 (fun _ _ => p.2.toList) n) norm0
  let norm2 := reSubAll pDot3 (fun s cp => (capS s cp 1).toList) norm1
  let norm3 := reSubAll pFracSub
    (fun s cp => (capS s cp 1).toList ++ ' ' :: (capS s cp 2).toList) norm2
  let nl := norm3.toList
  let alloys := (reFindAll pAlloy nl).filterMap (fun r =>
    let g := upperStr (capS nl r.2.2 1)
    let code := replaceSub g "-" ""
    if KNOWN_ALLOYS.contains code || code.length ≥ 3 then some g else none)
  let toks := (alnumRuns norm3).filter
    (fun t => !(STOP_WORDS.contains t) && t.length != 0)
  ⟨text, diameters, alloys, pkg_weights, pkg_types, toks, norm3⟩

/-- `combined` of `_score_item`: uppercased description, part number and
enriched description joined by single spaces. -/
def combOf (desc pn enr : String) : String :=
  upperStr desc ++ " " ++ upperStr pn ++ " " ++ (if enr = "" then "" else upperStr enr)

/-- Number of query tokens found as substrings of the combined text. -/
def hitCount (pq : ParsedQuery) (combined : String) : Nat :=
  (pq.tokens.filter (fun t => containsSub combined t)).length

/-- `token_ratio` of `_score_item`: hits over `max(len(tokens), 1)`. -/
def tokRatOf (pq : ParsedQuery) (combined : String) : ℚ :=
  ((hitCount pq combined : Nat) : ℚ) / (((max pq.tokens.length 1 : Nat)) : ℚ)

/-- The weighted base score of `_score_item`:
`token_ratio*45 + fuzzy_best/100*30 + coverage*15`, with `fuzzy_best` the
best of the three similarity measures and `coverage` the token-count ratio. -/
def baseScore (tsr pr : String → String → ℚ) (pq : ParsedQuery)
    (desc pn enr : String) : ℚ :=
  let desc_upper := upperStr desc
  let pn_upper := upperStr pn
  let enr_upper := if enr = "" then "" else upperStr enr
  let fuzzy_best := max (tsr pq.normalized desc_upper)
    (max (pr pq.normalized pn_upper)
      (if enr_upper = "" then 0 else tsr pq.normalized enr_upper))
  let coverage : ℚ :=
    min (((max pq.tokens.length 1 : Nat) : ℚ) / ((max (alnumRuns desc_upper).length 1 : Nat) : ℚ)) 1
  tokRatOf pq (combOf desc pn enr) * 45 + fuzzy_best / 100 * 30 + coverage * 15

/-- Diameter adjustment: `+15` when some extracted diameter occurs in the
combined text, `-10` when none does, `0` when none was extracted. -/
def diamAdjOf (diams : List String) (combined : String) : ℚ :=
  if diams.isEmpty then 0
  else if diams.any (fun d => containsSub combined d) then 15 else -10

/-- Alloy adjustment (`+12` / `-8`), hyphens stripped from both sides. -/
def alloyAdjOf (alloys : List String) (combined : String) : ℚ :=
  if alloys.isEmpty then 0
  else if alloys.any
    (fun a => containsSub (replaceSub combined "-" "") (replaceSub a "-" "")) then 12 else -8

/-- Package-weight adjustment (`+8` / `0`). -/
def pkgAdjOf (ws : List String) (combined : String) : ℚ :=
  if ws.isEmpty then 0
  else if ws.any (fun w0 => containsSub combined (w0 ++ "F") ||
    containsSub combined (w0 ++ "LB") || containsSub combined (w0 ++ " LB")) then 8 else 0

/-- Package-type adjustment (`+5` / `0`). -/
def typeAdjOf (ts : List String) (combined : String) : ℚ :=
  if ts.isEmpty then 0
  else if ts.any (fun t => containsSub combined t) then 5 else 0

/-- `_score_item` before the final clamp: the zero-token-ratio gate, then the
exact-part-number override (which replaces whatever the base score and the
signed adjustments produced, so it may be tested first without changing the
value), else base plus adjustments plus the all-tokens-hit bonus. -/
def scorePreClamp (tsr pr : String → String → ℚ) (pq : ParsedQuery)
    (desc pn enr : String) : ℚ :=
  let combined := combOf desc pn enr
  if tokRatOf pq combined = 0 then 0 else
  if replaceSub pq.normalized " " "" = replaceSub (upperStr pn) " " "" then 100
  else baseScore tsr pr pq desc pn enr + diamAdjOf pq.diameters combined
    + alloyAdjOf pq.alloys combined + pkgAdjOf pq.pkg_weights combined
    + typeAdjOf pq.pkg_types combined
    + (if tokRatOf pq combined = 1 then (8 : ℚ) else 0)

/-- Final clamp of `_score_item`: `max(min(score, 100), 0)`. -/
def clampScore (q : ℚ) : ℚ := max (min q 100) 0

/-- `_score_item`: score one catalog row against a parsed query. -/
def _score_item (tsr pr : String → String → ℚ) (pq : ParsedQuery)
    (desc pn enr : String) : ℚ :=
  clampScore (scorePreClamp tsr pr pq desc pn enr)

/-- One catalog row as seen by `search_products`.  `tag` stands for the other
columns of the row (uom, prices, ...), which search carries through unchanged. -/
structure Row where
  description : String
  part_number : String
  enriched : String
  tag : String
  deriving DecidableEq

/-- A row with its `match_score` column. -/
structure ScoredRow where
  row : Row
  match_score : ℚ
  deriving DecidableEq

/-- Ascending comparison on scores used to model `sort_values`. -/
def scoreLeB (a b : ScoredRow) : Bool := decide (a.match_score ≤ b.match_score)

/-- The scored copy of the partition (the `match_score` column). -/
def scoreRows (tsr pr : String → String → ℚ) (pq : ParsedQuery)
    (master : List Row) (useEnriched : Bool) : List ScoredRow :=
  master.map (fun r =>
    ⟨r, _score_item tsr pr pq r.description r.part_number
      (if useEnriched then r.enriched else "")⟩)

/-- `search_products`.  The descending sort models pandas
`sort_values("match_score", ascending=False)`, which argsorts ascending and
reverses the indexer; numpy's argsort is stable on the small frames this tool
serves (insertion sort below 17 elements), so the model is a stable ascending
sort followed by a reversal. -/
def search_products (tsr pr : String → String → ℚ) (query : String)
    (master : List Row) (max_results : Nat) (min_score : ℚ)
    (useEnriched : Bool) : List ScoredRow :=
  if master.isEmpty || pyStrip query = "" then [] else
  if (parse_query query).tokens.isEmpty then [] else
  ((isortBy scoreLeB
    ((scoreRows tsr pr (parse_query query) master useEnriched).filter
      (fun sr => decide (min_score ≤ sr.match_score)))).reverse).take max_results

/-! ### Embedding of `src/pricing.py` -/

/-- Floor of a rational, on the raw numerator/denominator (kernel-reducible;
`Int.fdiv` is floor division and the denominator is positive). -/
def ratFloorZ (q : ℚ) : ℤ := Int.fdiv q.num (q.den : ℤ)

/-- Python `round(x, 4)` (banker's rounding, ties to even) on exact rationals. -/
def pyRound4 (q : ℚ) : ℚ :=
  let x : ℚ := q * 10000
  let f : ℤ := ratFloorZ x
  let r : ℚ := x - (f : ℚ)
  let n : ℤ :=
    if r < 1/2 then f
    else if 1/2 < r then f + 1
    else if f % 2 = 0 then f else f + 1
  (n : ℚ) / 10000

/-- `PriceEntry` (its `total` is computed by `mkPriceEntry`, mirroring
`__post_init__`). -/
structure PriceEntry where
  price : ℚ
  source : String
  surcharges : ℚ
  total : ℚ
  context : String
  source_file : String
  deriving DecidableEq

/-- Build a `PriceEntry` with `total = round(price + surcharges, 4)`. -/
def mkPriceEntry (price : ℚ) (source : String) (surcharges : ℚ)
    (context source_file : String) : PriceEntry :=
  ⟨price, source, surcharges, pyRound4 (price + surcharges), context, source_file⟩

/-- A master-list catalog row as `get_pricing` reads it.  `none` in a price
field models a pandas NaN cell (`pd.notna` fails). -/
structure MasterRow where
  part_number : String
  description : String
  uom : String
  package_qty : Option ℚ
  weight : Option ℚ
  upc : String
  list_price : Option ℚ
  tier_price : Option ℚ
  source_file : String

/-- An end-user or location special-pricing row.  The loader normalizes the
surcharge columns to numbers (zero when absent) before they reach the core. -/
structure SpecialRow where
  part_number : String
  description : String
  uom : String
  price : Option ℚ
  alloy_surcharge : ℚ
  tariff_surcharge : ℚ
  customer_name : String
  end_user_name : String
  city : String
  state : String
  source_file : String

/-- `ProductPricing`. -/
structure ProductPricing where
  part_number : String
  description : String
  uom : String
  package_qty : Option ℚ
  weight : Option ℚ
  upc : String
  best_price : Option PriceEntry
  all_prices : List PriceEntry

/-- One master row's contribution: metadata backfill, then a Master List entry
and a Master Tier entry for each strictly positive price. -/
def stepMaster (res : ProductPricing) (r : MasterRow) : ProductPricing :=
  let res := if res.description = "" then
    { res with description := r.description, uom := r.uom, package_qty := r.package_qty, weight := r.weight, upc := r.upc }
    else res
  let res := match r.list_price with
    | some v => if 0 < v then
        { res with all_prices := res.all_prices ++ [mkPriceEntry v "Master List" 0 "" r.source_file] } else res
    | none => res
  match r.tier_price with
  | some v => if 0 < v then
      { res with all_prices := res.all_prices ++ [mkPriceEntry v "Master Tier" 0 "" r.source_file] } else res
  | none => res

/-- The end-user context label: stripped end-user name when present and not
the string `"nan"`, else the stripped customer name. -/
def euContext (r : SpecialRow) : String :=
  let eu := pyStrip r.end_user_name
  let cu := pyStrip r.customer_name
  if eu ≠ "" ∧ eu ≠ "nan" then eu else cu

/-- End-user filter: with a selected end-user, keep a row whose context,
end-user name or customer name equals the selection (an empty selection is
falsy in Python and so selects nothing out). -/
def euKeep (sel : Option String) (r : SpecialRow) : Bool :=
  match sel with
  | none => true
  | some s =>
      if s = "" then true
      else (euContext r == s) || (pyStrip r.end_user_name == s) || (pyStrip r.customer_name == s)

/-- One end-user row's contribution. -/
def stepEU (sel : Option String) (res : ProductPricing) (r : SpecialRow) : ProductPricing :=
  if !(euKeep sel r) then res else
  let res := if res.description = "" then
    { res with description := r.description, uom := r.uom } else res
  match r.price with
  | some v => if 0 < v then
      { res with all_prices := res.all_prices ++ [mkPriceEntry v "End User" (r.alloy_surcharge + r.tariff_surcharge) (euContext r) r.source_file] } else res
  | none => res

/-- The location context label `"customer -- city, state"` built from the
non-empty, non-`"nan"` parts. -/
def locContext (r : SpecialRow) : String :=
  let cust := pyStrip r.customer_name
  let city := pyStrip r.city
  let st := pyStrip r.state
  let l1 : List String := if cust ≠ "" ∧ cust ≠ "nan" then [cust] else []
  let l2 : List String :=
    if city ≠ "" ∧ city ≠ "nan" ∧ st ≠ "" ∧ st ≠ "nan" then [city ++ ", " ++ st]
    else if city ≠ "" ∧ city ≠ "nan" then [city] else []
  joinSep " -- " (l1 ++ l2)

/-- Location filter: with a selected location, keep only rows whose composed
context label equals it exactly. -/
def locKeep (sel : Option String) (r : SpecialRow) : Bool :=
  match sel with
  | none => true
  | some s => if s = "" then true else locContext r == s

/-- One location row's contribution. -/
def stepLoc (sel : Option String) (res : ProductPricing) (r : SpecialRow) : ProductPricing :=
  if !(locKeep sel r) then res else
  let res := if res.description = "" then
    { res with description := r.description, uom := r.uom } else res
  match r.price with
  | some v => if 0 < v then
      { res with all_prices := res.all_prices ++ [mkPriceEntry v "Location Special" (r.alloy_surcharge + r.tariff_surcharge) (locContext r) r.source_file] } else res
  | none => res

/-- The precedence table `{"Location Special": 1, "End User": 2,
"Master Tier": 3, "Master List": 4}` with default 99. -/
def precRank (s : String) : Nat :=
  if s = "Location Special" then 1
  else if s = "End User" then 2
  else if s = "Master Tier" then 3
  else if s = "Master List" then 4
  else 99

/-- Sort key of `get_pricing`: precedence rank ascending, then total ascending. -/
def priceLe (a b : PriceEntry) : Bool :=
  decide (precRank a.source < precRank b.source) ||
    (decide (precRank a.source = precRank b.source) && decide (a.total ≤ b.total))

/-- The collection phase of `get_pricing`: metadata and unsorted entries from
the master, end-user and location rows matching the part number. -/
def collectPricing (part_number : String) (masterRows : List MasterRow)
    (euRows locRows : List SpecialRow)
    (selected_end_user selected_location : Option String) : ProductPricing :=
  ((locRows.filter (fun r => r.part_number == pyStrip part_number)).foldl
    (stepLoc selected_location)
    ((euRows.filter (fun r => r.part_number == pyStrip part_number)).foldl
      (stepEU selected_end_user)
      ((masterRows.filter (fun r => r.part_number == pyStrip part_number)).foldl
        stepMaster ⟨part_number, "", "", none, none, "", none, []⟩)))

/-- `get_pricing` (`resolve_price` of the spec) for one distributor's master,
end-user and location row sets: collect, sort by (precedence rank, total),
best = head of the sorted list. -/
def get_pricing (part_number : String) (masterRows : List MasterRow)
    (euRows locRows : List SpecialRow)
    (selected_end_user selected_location : Option String) : ProductPricing :=
  { collectPricing part_number masterRows euRows locRows selected_end_user selected_location with
    all_prices := isortBy priceLe (collectPricing part_number masterRows euRows locRows selected_end_user selected_location).all_prices,
    best_price := (isortBy priceLe (collectPricing part_number masterRows euRows locRows selected_end_user selected_location).all_prices).head? }

/-! ### Embedding of `src/enrichment.py` (description decoder) -/

/-- `PRODUCT_LINES` as written in the source: an association list in dict
insertion order.  A few keys are written twice in the Python dict literal;
dict semantics (first position, last value) are recovered by
`dedupFirstAux` and `pyGetPL` below. -/
def PRODUCT_LINES : List (String × String × String) := [
  ("WELD 70S 6", "Spoolarc Weld 70S-6", "MIG Wire (ER70S-6)"),
  ("WELD 70S 3", "Spoolarc Weld 70S-3", "MIG Wire (ER70S-3)"),
  ("86", "Spoolarc 86", "MIG Wire (ER70S-6)"),
  ("86E", "Spoolarc 86", "MIG Wire (ER70S-6)"),
  ("86 E", "Spoolarc 86", "MIG Wire (ER70S-6)"),
  ("29S", "Spoolarc 29S", "MIG Wire (ER80S-D2)"),
  ("81", "Arcaloy 81", "MIG/TIG Wire"),
  ("81 3", "Arcaloy 81-B3", "Chrome-Moly Wire"),
  ("81 5", "Arcaloy 81-B5", "Chrome-Moly Wire"),
  ("83", "Spoolarc 83", "MIG Wire (ER80S-Ni1)"),
  ("83E", "Spoolarc 83", "MIG Wire (ER80S-Ni1)"),
  ("71", "Spoolarc 71", "MIG Wire"),
  ("71 5", "71-5", "MIG Wire"),
  ("82", "Spoolarc 82", "MIG Wire (ER80S-D2)"),
  ("82 E", "Spoolarc 82", "MIG Wire (ER80S-D2)"),
  ("95", "Spoolarc 95", "MIG Wire"),
  ("95E", "Spoolarc 95", "MIG Wire"),
  ("95 E", "Spoolarc 95", "MIG Wire"),
  ("95 CU", "Spoolarc 95 CU", "Copper-Coated MIG Wire"),
  ("120", "Spoolarc 120", "Submerged Arc Wire"),
  ("120E", "Spoolarc 120", "Submerged Arc Wire"),
  ("120 CU", "Spoolarc 120 CU", "Copper-Coated Submerged Arc Wire"),
  ("65", "Spoolarc 65", "Submerged Arc Wire"),
  ("65 E", "Spoolarc 65", "MIG Wire"),
  ("65E", "Spoolarc 65", "MIG Wire"),
  ("75E", "Spoolarc 75", "MIG Wire"),
  ("75 E", "Spoolarc 75", "MIG Wire"),
  ("CW", "CoreWeld", "Metal-Cored Wire"),
  ("CW 70", "CoreWeld 70", "Metal-Cored Wire (E70C-6M)"),
  ("CW C6", "CoreWeld C6", "Metal-Cored Wire"),
  ("DS", "Dual Shield", "Flux-Cored Wire"),
  ("DS II", "Dual Shield II", "Flux-Cored Wire"),
  ("DS II 70", "Dual Shield II 70", "Flux-Cored Wire (E71T-1)"),
  ("DS II 70 ULT", "Dual Shield II 70 Ultra", "Flux-Cored Wire (E71T-1)"),
  ("DS II 71", "Dual Shield II 71", "Flux-Cored Wire"),
  ("DS II 71 ULT", "Dual Shield II 71 Ultra", "Flux-Cored Wire (E71T-1)"),
  ("DS 710X", "Dual Shield 710X", "Flux-Cored Wire"),
  ("DS 7100 ULT", "Dual Shield 7100 Ultra", "Flux-Cored Wire (E71T-1M)"),
  ("DS 7100 LC", "Dual Shield 7100 Low Carbon", "Flux-Cored Wire"),
  ("DS 7100 SR", "Dual Shield 7100 SR", "Flux-Cored Wire"),
  ("DS 111RB", "Dual Shield 111RB", "Flux-Cored Wire"),
  ("DS T", "Dual Shield T", "Flux-Cored Wire"),
  ("DS T 75", "Dual Shield T-75", "Flux-Cored Wire"),
  ("DS R 70", "Dual Shield R 70", "Flux-Cored Wire"),
  ("DS R 70 ULT", "Dual Shield R 70 Ultra", "Flux-Cored Wire"),
  ("ESAB 71", "ESAB 71", "Flux-Cored Wire"),
  ("CS", "Coreshield", "Self-Shielded Flux-Cored Wire"),
  ("CS 8", "Coreshield 8", "Self-Shielded Flux-Cored Wire (E71T-8)"),
  ("CS 11", "Coreshield 11", "Self-Shielded Flux-Cored Wire (E71T-11)"),
  ("CS 15", "Coreshield 15", "Self-Shielded Flux-Cored Wire (E71T-14)"),
  ("AA", "Atom Arc", "Stick Electrode"),
  ("AA 7018", "Atom Arc 7018", "Stick Electrode (E7018)"),
  ("AA 7018 1", "Atom Arc 7018-1", "Stick Electrode (E7018-1)"),
  ("AA 7018 M", "Atom Arc 7018 Moisture Resistant", "Stick Electrode (E7018-H4R)"),
  ("AA T", "Atom Arc T", "Stick Electrode"),
  ("SW", "Sureweld", "Stick Electrode"),
  ("SW T", "Sureweld T", "Stick Electrode"),
  ("SW T 11", "Sureweld T-11", "Stick Electrode (E6011)"),
  ("SUREWELD 6010", "Sureweld 6010", "Stick Electrode (E6010)"),
  ("SUREWELD 6011", "Sureweld 6011", "Stick Electrode (E6011)"),
  ("SUREWELD 6013", "Sureweld 6013", "Stick Electrode (E6013)"),
  ("SUREWELD 7014", "Sureweld 7014", "Stick Electrode (E7014)"),
  ("SUREWELD 7018", "Sureweld 7018", "Stick Electrode (E7018)"),
  ("SUREWELD 7024", "Sureweld 7024", "Stick Electrode (E7024)"),
  ("SUREWELD 308L 16", "Sureweld 308L-16", "Stainless Stick Electrode (E308L-16)"),
  ("SUREWELD 309L 16", "Sureweld 309L-16", "Stainless Stick Electrode (E309L-16)"),
  ("SUREWELD 316L 16", "Sureweld 316L-16", "Stainless Stick Electrode (E316L-16)"),
  ("SUREWELD 308LSI MIG", "Sureweld 308LSi MIG", "Stainless MIG Wire (ER308LSi)"),
  ("AS", "AutoShield", "Submerged Arc Wire"),
  ("SA", "Spoolarc", "Submerged Arc Wire"),
  ("A S SUPER 4 60", "Arcaloy Super 4-60", "Stainless Stick Electrode"),
  ("A S 4 60", "Arcaloy 4-60", "Stainless Stick Electrode"),
  ("A S SMOOTHCOTE 34", "Arcaloy Smoothcote 34", "Stainless Stick Electrode"),
  ("A S 275", "Arcaloy 275", "Stainless Stick Electrode"),
  ("A S STEELARC 80LV", "Arcaloy Steelarc 80LV", "Low-Alloy Stick Electrode"),
  ("A S HS 2C", "Arcaloy HS-2C", "Stainless Stick Electrode"),
  ("A S 8 60", "Arcaloy 8-60", "Stainless Stick Electrode"),
  ("A S", "Arcaloy Stainless", "Stick Electrode"),
  ("OK FLUX 10", "OK Flux 10", "Submerged Arc Flux"),
  ("OK FLUXN 10", "OK Flux 10", "Submerged Arc Flux"),
  ("OK AUTROD 308LSI", "OK Autrod 308LSi", "Stainless MIG Wire"),
  ("OK AUTROD 12", "OK Autrod 12.50/12.51", "MIG Wire (ER70S-6)"),
  ("OK AUTROD", "OK Autrod", "MIG/TIG Wire (ESAB Europe)"),
  ("OK TIGROD", "OK Tigrod", "TIG Rod (ESAB Europe)"),
  ("OK TUBROD 14 12", "OK Tubrod 14.12", "Flux-Cored Wire (ESAB Europe)"),
  ("OK TUBROD", "OK Tubrod", "Flux-Cored Wire (ESAB Europe)"),
  ("OK AR12 62", "OK Autrod 12.62", "Low-Alloy MIG Wire"),
  ("OK AR12 63", "OK Autrod 12.63", "MIG Wire"),
  ("OK AR12 50", "OK Autrod 12.50", "MIG Wire (ER70S-6)"),
  ("OK AR 12 50", "OK Autrod 12.50", "MIG Wire (ER70S-6)"),
  ("OK AR 12 63", "OK Autrod 12.63", "MIG Wire"),
  ("OK AR55", "OK Autrod 55", "Low-Alloy MIG Wire"),
  ("OK AR13 26", "OK Autrod 13.26", "Stainless MIG Wire"),
  ("OK 53 70", "OK 53.70", "Stick Electrode (E7016)"),
  ("OK 12 51", "OK 12.51", "MIG Wire (ER70S-6)"),
  ("OK 12 50", "OK 12.50", "MIG Wire (ER70S-6)"),
  ("OK", "OK (ESAB Europe)", "Welding Consumable"),
  ("ER4043", "Alcotec ER4043", "Aluminum MIG/TIG Wire (4043)"),
  ("ER5356", "Alcotec ER5356", "Aluminum MIG/TIG Wire (5356)"),
  ("ER1100", "Alcotec ER1100", "Aluminum MIG/TIG Wire (1100)"),
  ("ER4047", "Alcotec ER4047", "Aluminum MIG/TIG Wire (4047)"),
  ("ER5183", "Alcotec ER5183", "Aluminum MIG/TIG Wire (5183)"),
  ("ER5554", "Alcotec ER5554", "Aluminum MIG/TIG Wire (5554)"),
  ("ER5556", "Alcotec ER5556", "Aluminum MIG/TIG Wire (5556)"),
  ("ER4145", "Alcotec ER4145", "Aluminum MIG/TIG Wire (4145)"),
  ("R4043", "Alcotec R4043", "Aluminum TIG Rod (4043)"),
  ("R4047", "Alcotec R4047", "Aluminum TIG Rod (4047)"),
  ("R4009", "Alcotec R4009", "Aluminum TIG Rod (4009)"),
  ("R5356", "Alcotec R5356", "Aluminum TIG Rod (5356)"),
  ("R5183", "Alcotec R5183", "Aluminum TIG Rod (5183)"),
  ("R5556", "Alcotec R5556", "Aluminum TIG Rod (5556)"),
  ("R5554", "Alcotec R5554", "Aluminum TIG Rod (5554)"),
  ("R1100", "Alcotec R1100", "Aluminum TIG Rod (1100)"),
  ("4043", "Alcotec 4043", "Aluminum MIG/TIG Wire (4043)"),
  ("5356", "Alcotec 5356", "Aluminum MIG/TIG Wire (5356)"),
  ("EXATON ER308 308L", "Exaton ER308/308L", "Stainless MIG/TIG Wire"),
  ("EXATON ER308SI 308LSI", "Exaton ER308Si/308LSi", "Stainless MIG/TIG Wire"),
  ("EXATON ER316 316L", "Exaton ER316/316L", "Stainless MIG/TIG Wire"),
  ("EXATON ER316SI 316LSI", "Exaton ER316Si/316LSi", "Stainless MIG/TIG Wire"),
  ("EXATON ER309 309L", "Exaton ER309/309L", "Stainless MIG/TIG Wire"),
  ("EXATON ER309LSI", "Exaton ER309LSi", "Stainless MIG/TIG Wire"),
  ("EXATON ER2209", "Exaton ER2209", "Duplex Stainless Wire/Rod"),
  ("EXATON ER2594", "Exaton ER2594", "Super Duplex Stainless Wire/Rod"),
  ("EXATON ER25 22 2 LMN", "Exaton ER25-22-2 LMn", "Super Duplex Stainless Wire/Rod"),
  ("EXATON ER317L", "Exaton ER317L", "Stainless MIG/TIG Wire (317L)"),
  ("EXATON AXT", "Exaton AXT", "Stainless Wire/Rod"),
  ("EXATON", "Exaton", "Stainless Wire/Rod"),
  ("AC 309L 16", "Arcaloy 309L-16", "Stainless Stick Electrode (E309L-16)"),
  ("AC 309L 15", "Arcaloy 309L-15", "Stainless Stick Electrode (E309L-15)"),
  ("AC 309 309H 16", "Arcaloy 309/309H-16", "Stainless Stick Electrode (E309-16)"),
  ("AC 309NB 16", "Arcaloy 309Nb-16", "Stainless Stick Electrode (E309Nb-16)"),
  ("AC 316LF5 16", "Arcaloy 316LF5-16", "Stainless Stick Electrode (E316L-16)"),
  ("AC 308L", "Arcaloy 308L", "Stainless Wire/Rod"),
  ("AC 309L", "Arcaloy 309L", "Stainless Stick Electrode"),
  ("SB 308L", "Shield-Brite 308L", "Stainless MIG Wire (ER308L)"),
  ("SB 308H", "Shield-Brite 308H", "Stainless MIG Wire (ER308H)"),
  ("SB 309L", "Shield-Brite 309L", "Stainless MIG Wire (ER309L)"),
  ("SB 316L", "Shield-Brite 316L", "Stainless MIG Wire (ER316L)"),
  ("SB", "Shield-Brite", "Stainless MIG Wire"),
  ("NCU80SB2", "Arcaloy NCU80SB2", "Nickel Alloy Wire/Rod"),
  ("NCU80SB6", "Arcaloy NCU80SB6", "Nickel Alloy Wire/Rod"),
  ("NCU80SB8", "Arcaloy NCU80SB8", "Nickel Alloy Wire/Rod"),
  ("NCU90SB3", "Arcaloy NCU90SB3", "Nickel Alloy Wire/Rod"),
  ("NCU90SB9", "Arcaloy NCU90SB9", "Nickel Alloy Wire/Rod"),
  ("TIG80SB2", "Arcaloy TIG80SB2", "Nickel Alloy TIG Rod"),
  ("TIG90SB3", "Arcaloy TIG90SB3", "Nickel Alloy TIG Rod"),
  ("NC 55", "Arcaloy NC-55", "Nickel Alloy Wire/Rod"),
  ("PURUS 42", "Purus 42", "Copper-Free MIG Wire (ER70S-6)"),
  ("WELD 70S 6 TIG", "Spoolarc Weld 70S-6 TIG", "TIG Rod (ER70S-6)"),
  ("WELD 70S 3 TIG", "Spoolarc Weld 70S-3 TIG", "TIG Rod (ER70S-3)"),
  ("DS 710", "Dual Shield 710", "Flux-Cored Wire"),
  ("DS 7100 SR", "Dual Shield 7100 SR", "Flux-Cored Wire"),
  ("DS T 75", "Dual Shield T-75", "Flux-Cored Wire"),
  ("DS R 70", "Dual Shield R 70", "Flux-Cored Wire"),
  ("CS 3", "Coreshield 3", "Self-Shielded Flux-Cored Wire"),
  ("CS 6", "Coreshield 6", "Self-Shielded Flux-Cored Wire"),
  ("ESAB 71", "ESAB 71", "Flux-Cored Wire (E71T-1)"),
  ("WELD 71T 9", "Weld 71T-9", "Flux-Cored Wire (E71T-9)"),
  ("AA 6010", "Atom Arc 6010", "Stick Electrode (E6010)"),
  ("AA 6011", "Atom Arc 6011", "Stick Electrode (E6011)"),
  ("AA 7014", "Atom Arc 7014", "Stick Electrode (E7014)"),
  ("AA 7024", "Atom Arc 7024", "Stick Electrode (E7024)"),
  ("SW 10", "Sureweld 10", "Stick Electrode (E6010)"),
  ("SW 11", "Sureweld 11", "Stick Electrode (E6011)"),
  ("SW 14", "Sureweld 14", "Stick Electrode (E7014)"),
  ("SW 18", "Sureweld 18", "Stick Electrode (E7018)"),
  ("SW 24", "Sureweld 24", "Stick Electrode (E7024)"),
  ("65 E", "Spoolarc 65 E", "Submerged Arc Wire"),
  ("AS 70S", "AutoShield 70S", "Submerged Arc Wire (ER70S)"),
  ("HELIX E WB", "Helix E WB", "Submerged Arc Wire"),
  ("STOODY", "Stoody", "Hardfacing Wire/Rod"),
  ("THERMACLAD", "ThermaClad", "Hardfacing Wire"),
  ("SPRAY MASTER", "SprayMaster", "MIG Gun"),
  ("SPRAYMASTER", "SprayMaster", "MIG Gun"),
  ("TWECO ELITE", "Tweco Elite", "MIG Gun"),
  ("CLASSIC", "Classic", "MIG Gun"),
  ("WELDSKILL", "WeldSkill", "MIG Gun"),
  ("SUPRAXT", "SupraXT", "MIG Gun"),
  ("COMPACT ELIMINATOR", "Compact Eliminator", "MIG Gun"),
  ("COMPACTELIMINATOR", "Compact Eliminator", "MIG Gun"),
  ("ESAB HELIARC SR", "ESAB Heliarc SR", "TIG Torch"),
  ("SL100", "SL100", "Plasma Torch"),
  ("SL60", "SL60", "Plasma Torch"),
  ("TBI 511 AUT", "TBI 511", "Automated MIG Torch"),
  ("TBI 360 AUT", "TBI 360", "Automated MIG Torch"),
  ("TBI 6G AUT", "TBI 6G", "Automated MIG Torch"),
  ("TBI 7G AUT", "TBI 7G", "Automated MIG Torch"),
  ("TBI 8G AUT", "TBI 8G", "Automated MIG Torch"),
  ("TBI", "TBI", "MIG Torch"),
  ("REBEL EMP 285IC", "Rebel EMP 285ic", "Multi-Process Welder"),
  ("REBEL EMP 235IC", "Rebel EMP 235ic", "Multi-Process Welder"),
  ("REBEL EMP 215IC", "Rebel EMP 215ic", "Multi-Process Welder"),
  ("REBEL EMP 205IC", "Rebel EMP 205ic", "Multi-Process Welder"),
  ("REBEL EMP", "Rebel EMP", "Multi-Process Welder"),
  ("REBEL", "Rebel", "Welding Machine"),
  ("ROBUST FEED PRO", "Robust Feed PRO", "Wire Feeder"),
  ("ROBUST FEED PULSE", "Robust Feed Pulse", "Wire Feeder"),
  ("ROBUST FEED U82", "Robust Feed U82", "Wire Feeder"),
  ("ROBUST FEED U6", "Robust Feed U6", "Wire Feeder"),
  ("ROBUST FEED U0", "Robust Feed U0", "Wire Feeder"),
  ("ROBUST FEED", "Robust Feed", "Wire Feeder"),
  ("ETS42 200", "ETS42-200", "Edge Two-Stage Regulator"),
  ("ETS4", "ETS4", "Edge Two-Stage Regulator"),
  ("ETS", "ETS", "Edge Regulator"),
  ("AIRCO 138", "Airco 138", "Airco-Style Cutting Tip"),
  ("AIRCO 144", "Airco 144", "Airco-Style Cutting Tip"),
  ("AIRCO 164", "Airco 164", "Airco-Style Welding Tip"),
  ("AIRCO", "Airco", "Airco-Style Gas Tip"),
  ("SR 26 RMT", "SR-26 RMT", "TIG Torch (200A Gas Cooled)"),
  ("SR 26V FX", "SR-26V FX", "TIG Torch (200A Gas Cooled)"),
  ("SR 26FV", "SR-26FV", "TIG Torch (200A Gas Cooled)"),
  ("SR 26", "SR-26", "TIG Torch (200A Gas Cooled)"),
  ("SR 21 FX", "SR-21 FX", "TIG Torch (200A Gas Cooled)"),
  ("SR 18 RMT", "SR-18 RMT", "TIG Torch (350A Water Cooled)"),
  ("SR 20 FX", "SR-20 FX", "TIG Torch (250A Water Cooled)"),
  ("SR 9 RMT", "SR-9 RMT", "TIG Torch (125A Gas Cooled)"),
  ("SR 17 RMT", "SR-17 RMT", "TIG Torch (150A Gas Cooled)"),
  ("SR", "SR Series", "TIG Torch"),
  ("HW 26FV", "WeldCraft 26FV", "TIG Torch Body (200A, Flex w/Valve)"),
  ("HW 17FV", "WeldCraft 17FV", "TIG Torch Body (150A, Flex w/Valve)"),
  ("HW 17RV", "WeldCraft 17RV", "TIG Torch Body (150A, Rigid w/Valve)"),
  ("HW 20", "WeldCraft 20", "TIG Torch Body (250A Water Cooled)"),
  ("HW 9", "WeldCraft 9", "TIG Torch Body (125A Gas Cooled)"),
  ("HW 90180", "WeldCraft 90/180", "TIG Torch Body"),
  ("HW", "WeldCraft", "TIG Torch Body/Part"),
  ("PT 27", "PT-27", "Plasma Torch"),
  ("PT 25", "PT-25", "Plasma Torch"),
  ("PT 31", "PT-31", "Plasma Torch"),
  ("PT 36", "PT-36", "Plasma Torch"),
  ("PT 38", "PT-38", "Plasma Torch"),
  ("PT 121", "PT-121", "Plasma Torch"),
  ("PT 26P", "PT-26P", "Plasma Torch"),
  ("CUTMASTER 120", "Cutmaster 120", "Plasma Cutting System"),
  ("CUTMASTER 82", "Cutmaster 82", "Plasma Cutting System"),
  ("CUTMASTER 60", "Cutmaster 60", "Plasma Cutting System"),
  ("CUTMASTER 40", "Cutmaster 40", "Plasma Cutting System"),
  ("CUTMASTER A120", "Cutmaster A120", "Plasma Cutting System"),
  ("CUTMASTER A80", "Cutmaster A80", "Plasma Cutting System"),
  ("CUTMASTER A40", "Cutmaster A40", "Plasma Cutting System"),
  ("CUTMASTER", "Cutmaster", "Plasma Cutting System"),
  ("PUROX STYLE 4202", "Purox Style 4202", "Oxy-Fuel Cutting Tip"),
  ("PUROX 4202", "Purox 4202", "Oxy-Fuel Cutting Tip"),
  ("PUROX STYLE", "Purox Style", "Oxy-Fuel Tip"),
  ("PUROX", "Purox", "Oxy-Fuel Tip"),
  ("OXWELD 1502", "Oxweld 1502", "Oxy-Fuel Cutting Tip"),
  ("OXWELD 150212", "Oxweld 1502-12", "Oxy-Fuel Cutting Tip"),
  ("OXWELD", "Oxweld", "Oxy-Fuel Tip"),
  ("ARC MC409TI", "Arcaloy MC409Ti", "Stainless Metal-Cored Wire"),
  ("ARC MC439TI", "Arcaloy MC439Ti", "Stainless Metal-Cored Wire"),
  ("ARC MC18CRCB", "Arcaloy MC18CrCb", "Stainless Metal-Cored Wire"),
  ("ARC MC", "Arcaloy Metal-Cored", "Stainless Metal-Cored Wire"),
  ("SUREWELD 308L", "Sureweld 308L-16", "Stainless Stick Electrode (E308L-16)"),
  ("SUREWELD 309L", "Sureweld 309L-16", "Stainless Stick Electrode (E309L-16)"),
  ("SUREWELD 316L", "Sureweld 316L-16", "Stainless Stick Electrode (E316L-16)"),
  ("SENTINEL A70PRO", "Sentinel A70 PRO", "Auto-Darkening Welding Helmet"),
  ("SENTINEL A60", "Sentinel A60", "Auto-Darkening Welding Helmet"),
  ("SENTINEL A50", "Sentinel A50", "Auto-Darkening Welding Helmet"),
  ("SENTINEL", "Sentinel", "Welding Helmet"),
  ("ESAB AUTROD 12", "ESAB Autrod 12", "MIG Wire (ESAB Europe)"),
  ("ESAB AUTROD", "ESAB Autrod", "MIG/TIG Wire (ESAB Europe)"),
  ("ESAB C6M", "ESAB CoreWeld C6M", "Metal-Cored Wire"),
  ("1100 O", "Alcotec 1100-O", "Aluminum Wire (1100)"),
  ("1100", "Alcotec 1100", "Aluminum Wire (1100)"),
  ("1350 F", "Alcotec 1350-F", "Aluminum Wire (1350)"),
  ("1350", "Alcotec 1350", "Aluminum Wire (1350)"),
  ("4008 F", "Alcotec 4008-F", "Aluminum Wire (4008)"),
  ("4008", "Alcotec 4008", "Aluminum Wire (4008)"),
  ("4043A", "Alcotec 4043A", "Aluminum Wire (4043A)"),
  ("4047 O", "Alcotec 4047-O", "Aluminum Wire (4047)"),
  ("5183", "Alcotec 5183", "Aluminum Wire (5183)"),
  ("5754", "Alcotec 5754", "Aluminum Wire (5754)"),
  ("7050", "Alcotec 7050", "Aluminum Wire (7050)"),
  ("TAM SERIES AUTO", "Tweco TAM Series", "Automatic MIG Gun Connection"),
  ("TAM BODY", "Tweco TAM Body", "MIG Gun Connection Body"),
  ("TAM", "Tweco TAM", "MIG Gun Connection Part"),
  ("SANDVIK E317L", "Sandvik E317L-16", "Stainless Stick Electrode (E317L-16)"),
  ("SANDVIK E309L", "Sandvik E309L-16", "Stainless Stick Electrode (E309L-16)"),
  ("SANDVIK E316L", "Sandvik E316L-16", "Stainless Stick Electrode (E316L-16)"),
  ("SANDVIK E308L", "Sandvik E308L-16", "Stainless Stick Electrode (E308L-16)"),
  ("SANDVIK", "Sandvik", "Stainless Stick Electrode"),
  ("ESAB TEACH TOOL", "ESAB Teach Tool", "Cobot Welding Teaching Pendant"),
  ("ESAB RC REMOTE", "ESAB RC Remote Control", "Remote Control for Welding"),
  ("ESAB STANDARD", "ESAB Standard Interface", "Welding System Interface"),
  ("ESAB 7018", "ESAB 7018", "Stick Electrode (E7018)"),
  ("ESAB RUFFIAN", "ESAB Ruffian", "Engine-Driven Welder"),
  ("ESAB", "ESAB", "Welding Product"),
  ("FLUX CORE SEFC", "Flux Core SEFC", "Flux Core Seam Track Liner"),
  ("FLUX HOPPER", "Flux Hopper", "Submerged Arc Flux Hopper")]

/-- First occurrence of each key, in order — Python dict key order. -/
def dedupFirstAux : List String → List String → List String
  | _, [] => []
  | seen, x :: xs =>
      if seen.contains x then dedupFirstAux seen xs
      else x :: dedupFirstAux (x :: seen) xs

/-- Python dict lookup: the value of the *last* binding of a key. -/
def pyGetPL (k : String) : Option (String × String) :=
  ((PRODUCT_LINES.reverse).find? (fun t => t.1 == k)).map (fun t => t.2)

/-- `sorted(PRODUCT_LINES.keys(), key=len, reverse=True)`: the product-line
codes pre-sorted by length descending (stable, so Python's `reverse=True`
keeps dict order among equal lengths).  Stored as the pre-sorted static table
the design calls for; `productLineCodesSorted_eq` below checks it against the
sort the source performs. -/
def productLineCodesSorted : List String := [
  "EXATON ER308SI 308LSI", "EXATON ER316SI 316LSI", "EXATON ER25 22 2 LMN",
  "SUREWELD 308LSI MIG", "COMPACT ELIMINATOR", "A S SMOOTHCOTE 34", "A S STEELARC 80LV",
  "EXATON ER308 308L", "EXATON ER316 316L", "EXATON ER309 309L", "COMPACTELIMINATOR",
  "ROBUST FEED PULSE", "SUREWELD 308L 16", "SUREWELD 309L 16", "SUREWELD 316L 16",
  "OK AUTROD 308LSI", "PUROX STYLE 4202", "OK TUBROD 14 12", "EXATON ER309LSI",
  "ESAB HELIARC SR", "REBEL EMP 285IC", "REBEL EMP 235IC", "REBEL EMP 215IC",
  "REBEL EMP 205IC", "ROBUST FEED PRO", "ROBUST FEED U82", "SENTINEL A70PRO",
  "TAM SERIES AUTO", "ESAB TEACH TOOL", "A S SUPER 4 60", "AC 309 309H 16", "WELD 70S 6 TIG",
  "WELD 70S 3 TIG", "ROBUST FEED U6", "ROBUST FEED U0", "CUTMASTER A120", "ESAB AUTROD 12",
  "ESAB RC REMOTE", "FLUX CORE SEFC", "SUREWELD 6010", "SUREWELD 6011", "SUREWELD 6013",
  "SUREWELD 7014", "SUREWELD 7018", "SUREWELD 7024", "EXATON ER2209", "EXATON ER2594",
  "EXATON ER317L", "CUTMASTER 120", "CUTMASTER A80", "CUTMASTER A40", "OXWELD 150212",
  "SUREWELD 308L", "SUREWELD 309L", "SUREWELD 316L", "SANDVIK E317L", "SANDVIK E309L",
  "SANDVIK E316L", "SANDVIK E308L", "ESAB STANDARD", "DS II 70 ULT", "DS II 71 ULT",
  "OK AUTROD 12", "AC 316LF5 16", "SPRAY MASTER", "CUTMASTER 82", "CUTMASTER 60",
  "CUTMASTER 40", "ARC MC18CRCB", "SENTINEL A60", "SENTINEL A50", "ESAB RUFFIAN",
  "DS 7100 ULT", "DS R 70 ULT", "OK FLUXN 10", "OK AR 12 50", "OK AR 12 63", "AC 309NB 16",
  "SPRAYMASTER", "TWECO ELITE", "TBI 511 AUT", "TBI 360 AUT", "ROBUST FEED", "PUROX STYLE",
  "OXWELD 1502", "ARC MC409TI", "ARC MC439TI", "ESAB AUTROD", "FLUX HOPPER", "WELD 70S 6",
  "WELD 70S 3", "DS 7100 LC", "DS 7100 SR", "OK FLUX 10", "OK AR12 62", "OK AR12 63",
  "OK AR12 50", "OK AR13 26", "EXATON AXT", "AC 309L 16", "AC 309L 15", "WELD 71T 9",
  "HELIX E WB", "THERMACLAD", "TBI 6G AUT", "TBI 7G AUT", "TBI 8G AUT", "PUROX 4202",
  "AA 7018 1", "AA 7018 M", "A S HS 2C", "OK AUTROD", "OK TIGROD", "OK TUBROD", "WELDSKILL",
  "REBEL EMP", "ETS42 200", "AIRCO 138", "AIRCO 144", "AIRCO 164", "SR 26 RMT", "SR 26V FX",
  "SR 18 RMT", "SR 17 RMT", "CUTMASTER", "ESAB 7018", "DS II 70", "DS II 71", "DS 111RB",
  "A S 4 60", "A S 8 60", "OK 53 70", "OK 12 51", "OK 12 50", "NCU80SB2", "NCU80SB6",
  "NCU80SB8", "NCU90SB3", "NCU90SB9", "TIG80SB2", "TIG90SB3", "PURUS 42", "SR 21 FX",
  "SR 20 FX", "SR 9 RMT", "HW 90180", "SENTINEL", "ESAB C6M", "TAM BODY", "DS 710X",
  "DS T 75", "DS R 70", "ESAB 71", "AA 7018", "SW T 11", "A S 275", "OK AR55", "AC 308L",
  "AC 309L", "SB 308L", "SB 308H", "SB 309L", "SB 316L", "AA 6010", "AA 6011", "AA 7014",
  "AA 7024", "CLASSIC", "SUPRAXT", "SR 26FV", "HW 26FV", "HW 17FV", "HW 17RV", "SANDVIK",
  "120 CU", "ER4043", "ER5356", "ER1100", "ER4047", "ER5183", "ER5554", "ER5556", "ER4145",
  "EXATON", "DS 710", "AS 70S", "STOODY", "PT 121", "PT 26P", "OXWELD", "ARC MC", "1100 O",
  "1350 F", "4008 F", "4047 O", "95 CU", "CW 70", "CW C6", "DS II", "CS 11", "CS 15", "R4043",
  "R4047", "R4009", "R5356", "R5183", "R5556", "R5554", "R1100", "NC 55", "SW 10", "SW 11",
  "SW 14", "SW 18", "SW 24", "SL100", "REBEL", "AIRCO", "SR 26", "HW 20", "PT 27", "PT 25",
  "PT 31", "PT 36", "PT 38", "PUROX", "4043A", "86 E", "81 3", "81 5", "71 5", "82 E", "95 E",
  "120E", "65 E", "75 E", "DS T", "CS 8", "AA T", "SW T", "4043", "5356", "CS 3", "CS 6",
  "SL60", "ETS4", "HW 9", "1100", "1350", "4008", "5183", "5754", "7050", "ESAB", "86E",
  "29S", "83E", "95E", "120", "65E", "75E", "A S", "TBI", "ETS", "TAM", "86", "81", "83",
  "71", "82", "95", "65", "CW", "DS", "CS", "AA", "SW", "AS", "SA", "OK", "SB", "SR", "HW"]

/-- The deduplicated `PRODUCT_LINES` key list (first occurrence kept, in
table order), stored explicitly; `productLineCodes_eq` below checks it
against the deduplication a Python dict performs on its keys. -/
def productLineCodes : List String := [
  "WELD 70S 6", "WELD 70S 3", "86", "86E", "86 E", "29S", "81", "81 3", "81 5", "83", "83E",
  "71", "71 5", "82", "82 E", "95", "95E", "95 E", "95 CU", "120", "120E", "120 CU", "65",
  "65 E", "65E", "75E", "75 E", "CW", "CW 70", "CW C6", "DS", "DS II", "DS II 70",
  "DS II 70 ULT", "DS II 71", "DS II 71 ULT", "DS 710X", "DS 7100 ULT", "DS 7100 LC",
  "DS 7100 SR", "DS 111RB", "DS T", "DS T 75", "DS R 70", "DS R 70 ULT", "ESAB 71", "CS",
  "CS 8", "CS 11", "CS 15", "AA", "AA 7018", "AA 7018 1", "AA 7018 M", "AA T", "SW", "SW T",
  "SW T 11", "SUREWELD 6010", "SUREWELD 6011", "SUREWELD 6013", "SUREWELD 7014",
  "SUREWELD 7018", "SUREWELD 7024", "SUREWELD 308L 16", "SUREWELD 309L 16",
  "SUREWELD 316L 16", "SUREWELD 308LSI MIG", "AS", "SA", "A S SUPER 4 60", "A S 4 60",
  "A S SMOOTHCOTE 34", "A S 275", "A S STEELARC 80LV", "A S HS 2C", "A S 8 60", "A S",
  "OK FLUX 10", "OK FLUXN 10", "OK AUTROD 308LSI", "OK AUTROD 12", "OK AUTROD", "OK TIGROD",
  "OK TUBROD 14 12", "OK TUBROD", "OK AR12 62", "OK AR12 63", "OK AR12 50", "OK AR 12 50",
  "OK AR 12 63", "OK AR55", "OK AR13 26", "OK 53 70", "OK 12 51", "OK 12 50", "OK", "ER4043",
  "ER5356", "ER1100", "ER4047", "ER5183", "ER5554", "ER5556", "ER4145", "R4043", "R4047",
  "R4009", "R5356", "R5183", "R5556", "R5554", "R1100", "4043", "5356", "EXATON ER308 308L",
  "EXATON ER308SI 308LSI", "EXATON ER316 316L", "EXATON ER316SI 316LSI", "EXATON ER309 309L",
  "EXATON ER309LSI", "EXATON ER2209", "EXATON ER2594", "EXATON ER25 22 2 LMN",
  "EXATON ER317L", "EXATON AXT", "EXATON", "AC 309L 16", "AC 309L 15", "AC 309 309H 16",
  "AC 309NB 16", "AC 316LF5 16", "AC 308L", "AC 309L", "SB 308L", "SB 308H", "SB 309L",
  "SB 316L", "SB", "NCU80SB2", "NCU80SB6", "NCU80SB8", "NCU90SB3", "NCU90SB9", "TIG80SB2",
  "TIG90SB3", "NC 55", "PURUS 42", "WELD 70S 6 TIG", "WELD 70S 3 TIG", "DS 710", "CS 3",
  "CS 6", "WELD 71T 9", "AA 6010", "AA 6011", "AA 7014", "AA 7024", "SW 10", "SW 11", "SW 14",
  "SW 18", "SW 24", "AS 70S", "HELIX E WB", "STOODY", "THERMACLAD", "SPRAY MASTER",
  "SPRAYMASTER", "TWECO ELITE", "CLASSIC", "WELDSKILL", "SUPRAXT", "COMPACT ELIMINATOR",
  "COMPACTELIMINATOR", "ESAB HELIARC SR", "SL100", "SL60", "TBI 511 AUT", "TBI 360 AUT",
  "TBI 6G AUT", "TBI 7G AUT", "TBI 8G AUT", "TBI", "REBEL EMP 285IC", "REBEL EMP 235IC",
  "REBEL EMP 215IC", "REBEL EMP 205IC", "REBEL EMP", "REBEL", "ROBUST FEED PRO",
  "ROBUST FEED PULSE", "ROBUST FEED U82", "ROBUST FEED U6", "ROBUST FEED U0", "ROBUST FEED",
  "ETS42 200", "ETS4", "ETS", "AIRCO 138", "AIRCO 144", "AIRCO 164", "AIRCO", "SR 26 RMT",
  "SR 26V FX", "SR 26FV", "SR 26", "SR 21 FX", "SR 18 RMT", "SR 20 FX", "SR 9 RMT",
  "SR 17 RMT", "SR", "HW 26FV", "HW 17FV", "HW 17RV", "HW 20", "HW 9", "HW 90180", "HW",
  "PT 27", "PT 25", "PT 31", "PT 36", "PT 38", "PT 121", "PT 26P", "CUTMASTER 120",
  "CUTMASTER 82", "CUTMASTER 60", "CUTMASTER 40", "CUTMASTER A120", "CUTMASTER A80",
  "CUTMASTER A40", "CUTMASTER", "PUROX STYLE 4202", "PUROX 4202", "PUROX STYLE", "PUROX",
  "OXWELD 1502", "OXWELD 150212", "OXWELD", "ARC MC409TI", "ARC MC439TI", "ARC MC18CRCB",
  "ARC MC", "SUREWELD 308L", "SUREWELD 309L", "SUREWELD 316L", "SENTINEL A70PRO",
  "SENTINEL A60", "SENTINEL A50", "SENTINEL", "ESAB AUTROD 12", "ESAB AUTROD", "ESAB C6M",
  "1100 O", "1100", "1350 F", "1350", "4008 F", "4008", "4043A", "4047 O", "5183", "5754",
  "7050", "TAM SERIES AUTO", "TAM BODY", "TAM", "SANDVIK E317L", "SANDVIK E309L",
  "SANDVIK E316L", "SANDVIK E308L", "SANDVIK", "ESAB TEACH TOOL", "ESAB RC REMOTE",
  "ESAB STANDARD", "ESAB 7018", "ESAB RUFFIAN", "ESAB", "FLUX CORE SEFC", "FLUX HOPPER"]

/-- The stored deduplicated key list equals the deduplication of the
`PRODUCT_LINES` keys (first position wins, as in a Python dict). -/
theorem productLineCodes_eq :
    dedupFirstAux [] (PRODUCT_LINES.map (fun t => t.1)) = productLineCodes := by
  decide

/-- The pre-sorted table equals the stable descending-by-length sort of the
stored deduplicated key list. -/
theorem productLineCodesSorted_eq_codes :
    productLineCodesSorted =
      (isortBy (fun a b => decide (b.1 ≤ a.1))
        (productLineCodes.map (fun c => (c.length, c)))).map (fun p => p.2) := by
  decide

/-- The pre-sorted table equals the stable descending-by-length sort of the
deduplicated `PRODUCT_LINES` keys (the sort `_match_product_line` performs,
with the key length computed once per code as `sorted(key=len)` does). -/
theorem productLineCodesSorted_eq :
    productLineCodesSorted =
      (isortBy (fun a b => decide (b.1 ≤ a.1))
        ((dedupFirstAux [] (PRODUCT_LINES.map (fun t => t.1))).map
          (fun c => (c.length, c)))).map (fun p => p.2) := by
  rw [productLineCodes_eq]
  exact productLineCodesSorted_eq_codes

/-- `DIAMETER_MAP`. -/
def DIAMETER_MAP : List (String × String) := [
  ("023", "0.023\""),
  ("024", "0.024\""),
  ("030", "0.030\""),
  ("035", "0.035\""),
  ("040", "0.040\""),
  ("045", "0.045\""),
  ("047", "3/64\""),
  ("052", "0.052\""),
  ("062", "0.062\""),
  ("068", "0.068\""),
  ("078", "5/64\""),
  ("093", "3/32\"")]

/-- `FRACTION_DIAMETERS` (iteration order of the dict matters and is kept). -/
def FRACTION_DIAMETERS : List (String × String) := [
  ("1 16", "1/16\""),
  ("5 64", "5/64\""),
  ("3 32", "3/32\""),
  ("7 64", "7/64\""),
  ("1 8", "1/8\""),
  ("9 64", "9/64\""),
  ("5 32", "5/32\""),
  ("3 16", "3/16\""),
  ("7 32", "7/32\""),
  ("1 4", "1/4\""),
  ("5 16", "5/16\"")]

/-- `METRIC_DIAMETERS`. -/
def METRIC_DIAMETERS : List (String × String) := [
  ("0 6MM", "0.6mm"),
  ("0 8MM", "0.8mm"),
  ("0 9MM", "0.9mm"),
  ("1 0MM", "1.0mm"),
  ("1 2MM", "1.2mm"),
  ("1 4MM", "1.4mm"),
  ("1 6MM", "1.6mm"),
  ("2 0MM", "2.0mm"),
  ("2 4MM", "2.4mm"),
  ("3 2MM", "3.2mm")]

/-- Association-list lookup used for the decoder's small ordered maps. -/
def lookupA (l : List (String × String)) (k : String) : Option String :=
  (l.find? (fun p => p.1 == k)).map (fun p => p.2)

/-- `HARDGOODS_CATEGORIES`: ordered keyword-anywhere rules. -/
def HARDGOODS_CATEGORIES : List (List String × String) := [
  (["TIP TIP GOUGING"], "Plasma Gouging Tip"),
  (["TIP TIP LONG"], "Plasma Cutting Tip (Long)"),
  (["TIP TIP EXTENDED"], "Plasma Cutting Tip (Extended)"),
  (["TIP TIP"], "Plasma Cutting Tip"),
  (["ELECTRODE ELECTRODE AIR", "ELECTRODE AIR"], "Air Carbon Arc Electrode"),
  (["ELECTRODE ELECTRODE O2", "ELECTRODE ELECTRODE NITROGEN", "ELECTRODE ELECTRODE AR", "ELECTRODE ELECTRODE MULTI", "ELECTRODE ELECTRODE GOUGING", "ELECTRODE ELECTRODE MG", "ELECTRODE ELECTRODE N2", "ELECTRODE ELECTRODE WELDING", "ELECTRODE ELECTRODE LO AMP"], "Plasma Electrode"),
  (["ELECTRODE PT"], "Plasma Electrode"),
  (["GAS LENS"], "TIG Gas Lens"),
  (["CUP HI", "CUP CER", "SHIELD CUP"], "TIG Cup"),
  (["COLLET BODY"], "TIG Collet Body"),
  (["COLLET"], "TIG Collet"),
  (["BACK CAP"], "TIG Back Cap"),
  (["TIG TORCH"], "TIG Torch"),
  (["CONTACT TIP"], "Contact Tip"),
  (["CONTACT JAW"], "Contact Jaw"),
  (["CONTACT TUBE"], "Contact Tube"),
  (["CT HOLDER"], "Contact Tip Holder"),
  (["NOZZLE"], "Nozzle"),
  (["GAS DIFFUSER"], "Gas Diffuser"),
  (["GAS DISTRIBUTOR"], "Gas Distributor"),
  (["SHIELD CAP"], "Shield Cap"),
  (["SHIELD RETAINER"], "Shield Retaining Cap"),
  (["NOZ RETAIN"], "Nozzle Retaining Cup"),
  (["DRIVE RL", "DRIVE ROLL"], "Drive Roll"),
  (["FEEDROLL", "FEED ROLL", "FEED ROLLER"], "Feed Roll"),
  (["CONDUCTOR TUBE"], "Conductor Tube"),
  (["LINER"], "MIG Liner"),
  (["GUIDE TUBE"], "Wire Guide Tube"),
  (["WIRE GUIDE"], "Wire Guide"),
  (["WIRE OUTLET", "OUTLET GUIDE"], "Wire Outlet Guide"),
  (["INLET GUIDE"], "Wire Inlet Guide"),
  (["CENTER GUIDE"], "Center Wire Guide"),
  (["INSULATOR"], "Insulator"),
  (["TORCH BODY", "TORCH ADAPTER"], "Torch"),
  (["TORCH HEAD"], "Torch Head"),
  (["TORCH HOLDER"], "Torch Holder"),
  (["TORCH CARRIAGE"], "Torch Carriage"),
  (["TORCH LEADS"], "Torch Leads Package"),
  (["SPRAYMASTER", "SPRAY MASTER"], "SprayMaster MIG Gun"),
  (["TWECO ELITE"], "Tweco Elite MIG Gun"),
  (["TWECO"], "Tweco MIG Gun Part"),
  (["HELIARC"], "ESAB Heliarc TIG Torch"),
  (["EXEOR MIG"], "Exeor MIG Gun"),
  (["QRW ROBOTIC", "QRA ROBOTIC", "QRWA ROBOTIC"], "Robotic MIG Gun"),
  (["PUSHPULL", "PUSH PULL"], "Push-Pull MIG Gun"),
  (["SWAN NECK"], "Robotic Swan Neck"),
  (["WATER COOLED MIG"], "Water-Cooled MIG Gun"),
  (["CUTTING TIP", "TIP TIP AIR"], "Cutting Tip"),
  (["VICTOR STYLE"], "Victor-Style Gas Apparatus"),
  (["SMITH STYLE"], "Smith-Style Gas Apparatus"),
  (["HARRIS STYLE"], "Harris-Style Gas Apparatus"),
  (["AIRCO STYLE"], "Airco-Style Gas Apparatus"),
  (["SEAT STEM"], "Seat Stem Assembly"),
  (["SWIVEL BRASS"], "Brass Swivel Fitting"),
  (["INNER OXYGEN"], "Inner Oxygen Tube"),
  (["MACHINE CUTTING TORCH"], "Machine Cutting Torch"),
  (["TUNG ELEC", "TUNGSTEN"], "Tungsten Electrode"),
  (["ELECTRODE HOLDER"], "Electrode Holder"),
  (["POWER SUPPLY", "POWER SOURCE"], "Power Supply"),
  (["WIRE FEEDER", "WIREFEED"], "Wire Feeder"),
  (["WARRIOR"], "Warrior Welding Machine"),
  (["ARISTO"], "Aristo Welding Machine"),
  (["ROGUE"], "Rogue Welding Machine"),
  (["COOL MINI"], "Cool Mini Water Cooler"),
  (["REGULATOR"], "Regulator"),
  (["RELIEF VALVE"], "Relief Valve"),
  (["SOLENOID VALVE"], "Solenoid Valve"),
  (["PRESSURE ROLL", "PRESSURE ROLLER"], "Pressure Roll"),
  (["PRESSURE DEVICE"], "Pressure Device"),
  (["PRESSURE CONTROL"], "Pressure Control"),
  (["CABLE"], "Cable"),
  (["WELDING CABLE"], "Welding Cable"),
  (["EDGE INTERC"], "Edge Interconnection Cable"),
  (["CONN SET"], "Connector Set"),
  (["CONNECTOR"], "Connector"),
  (["QUICK CONNECTOR"], "Quick Connector"),
  (["HOSE ASSY", "HOSE CONN", "HOSE UNION", "HOSE PACKAGE"], "Hose Assembly"),
  (["FLEX CONDTUBE", "CONDUIT"], "Conduit / Liner"),
  (["HANDLE"], "Handle"),
  (["KNOB"], "Knob"),
  (["SWITCH"], "Switch"),
  (["NUT BRASS"], "Brass Nut"),
  (["NUT"], "Nut"),
  (["SCREW"], "Screw"),
  (["WASHER"], "Washer"),
  (["O RING"], "O-Ring"),
  (["SPRING"], "Spring"),
  (["COVER"], "Cover"),
  (["SHIELD"], "Shield"),
  (["FRONT PANEL", "FRONT DECORATIVE"], "Front Panel"),
  (["FRONT COVER LENS"], "Front Cover Lens"),
  (["FRONT WHEEL"], "Front Wheel Kit"),
  (["FRONT"], "Front Part"),
  (["HEAT SHIELD"], "Heat Shield"),
  (["PCB CONTROL", "PCB"], "Circuit Board (PCB)"),
  (["PC BOARD", "PFC BOARD"], "Circuit Board"),
  (["CIRCUIT BREAKER"], "Circuit Breaker"),
  (["MOTOR"], "Motor"),
  (["FAN"], "Fan"),
  (["FILTER"], "Filter"),
  (["PANEL"], "Panel"),
  (["REAMER"], "Nozzle Reamer"),
  (["MIXER"], "Torch Mixer"),
  (["GAUGE"], "Pressure Gauge"),
  (["VALVE BODY", "VALVE STEM", "VALVE ASSY"], "Valve Assembly"),
  (["DIAPHRAGM"], "Diaphragm"),
  (["MAGNETIC EARTH CLAMP"], "Magnetic Earth Clamp"),
  (["MAGNETIC TORCH HOLDER"], "Magnetic Torch Holder"),
  (["COLLISION PROTECTION", "COLLISION POTECTION"], "Collision Protection"),
  (["LASER PROTECTION"], "Laser Protection Cover"),
  (["SPARE PARTS KIT"], "Spare Parts Kit"),
  (["REPAIR KIT"], "Repair Kit"),
  (["PACK CUTSKILL"], "Cutskill Plasma Consumable"),
  (["PLASMA"], "Plasma Torch Part"),
  (["LABEL"], "Label"),
  (["STOODY"], "Stoody Hardfacing"),
  (["THERMACLAD"], "ThermaClad Hardfacing"),
  (["CTD", "VACPAK"], "TIG Rod / Cut Length"),
  (["WIRE STRAIGHTENER"], "Wire Straightener"),
  (["WIRE REEL"], "Wire Reel"),
  (["CONTROL WIRE"], "Control Wire"),
  (["GUIDE PIN"], "Guide Pin"),
  (["GUIDE WHEEL"], "Guide Wheel"),
  (["GUIDE FINGER"], "Guide Finger"),
  (["GAS SEPARATOR"], "Gas Separator"),
  (["GAS HOSE"], "Gas Hose"),
  (["GAS COOLED"], "Gas-Cooled Torch Part"),
  (["GAS SYSTEM"], "Gas System Component"),
  (["TORCH PB", "TORCH PUSH"], "Push-Pull MIG Torch"),
  (["TORCH NECK"], "Torch Neck"),
  (["TORCH BODY"], "Torch Body"),
  (["TORCH ADAPTER"], "Torch Adapter"),
  (["VALVE CONNECTION"], "Valve Connection"),
  (["VALVE CAP"], "Valve Cap"),
  (["VALVE"], "Valve"),
  (["SPACER"], "Spacer"),
  (["TRIGGER ASSY", "TRIGGER ASSEMBLY"], "Trigger Assembly"),
  (["TRIGGER LEVER"], "Trigger Lever"),
  (["TRIGGER"], "Trigger"),
  (["HARNESS SIGNAL"], "Signal Harness"),
  (["HARNESS SOLENOID"], "Solenoid Harness"),
  (["HARNESS GAS"], "Gas System Harness"),
  (["HARNESS"], "Wiring Harness"),
  (["SLEEVE PLUG"], "Sleeve Plug"),
  (["SLEEVE"], "Sleeve"),
  (["HEAD REPAIR"], "Torch Head Repair Part"),
  (["ARC CONTROL"], "Arc Control Box"),
  (["REAR AXLE"], "Rear Axle"),
  (["REAR CASE"], "Rear Case"),
  (["REAR"], "Rear Part"),
  (["BASE PLATE"], "Base Plate"),
  (["FLUX CORE SEFC"], "Flux Core Seam Track Liner"),
  (["FLUX HOPPER"], "Submerged Arc Flux Hopper"),
  (["CLEAR PLASTIC"], "Clear Plastic Cover"),
  (["WASTE BAG"], "Waste Bags"),
  (["ACETYLENE TUBE"], "Acetylene Tube"),
  (["OXYGEN TUBE"], "Oxygen Tube"),
  (["ACETYLENE HOSE"], "Acetylene Hose"),
  (["PSF 250", "PSF 305", "PSF 410", "PSF 510"], "PSF MIG Torch Part"),
  (["PSF"], "PSF MIG Torch Part"),
  (["MFTN HEATING", "MFTA HEATING"], "Victor Heating Tip"),
  (["HDN CUT"], "Victor Heavy Duty Cutting Tip"),
  (["GPP GUTTING", "GPN CUTTING"], "Victor Cutting Tip"),
  (["GTB GOUGING"], "Victor Gouging Tip"),
  (["SLICE TRH"], "Slice Plasma Torch Head"),
  (["SLICE"], "Slice Plasma Consumable"),
  (["FOOT SENSOR"], "Foot Sensor"),
  (["MOUNTING BRACKET"], "Mounting Bracket"),
  (["PRESSURE BOGEY"], "Pressure Bogey Kit"),
  (["CASTING SHEAVE"], "Sheave Assembly"),
  (["RUBBER HOSE"], "Rubber Hose"),
  (["WELDING CURRENT"], "Welding Current Terminal"),
  (["CTO CTF"], "Cutting Torch Outfit"),
  (["LEADS PACK"], "Torch Leads Package")]

/-- `_STARTSWITH_CATEGORIES`: ordered starts-with rules. -/
def STARTSWITH_CATEGORIES : List (String × String) := [
  ("HOSE ", "Hose"),
  ("FITTING ", "Fitting"),
  ("ELECTRODE ", "Electrode Part"),
  ("TIP ", "Tip"),
  ("WIRE ", "Wire Part"),
  ("GUIDE ", "Guide"),
  ("SHIELD ", "Shield"),
  ("ADAPT ", "Adapter"),
  ("SENSOR ", "Sensor"),
  ("CLAMP ", "Clamp"),
  ("PLUG ", "Plug"),
  ("BRACKET ", "Bracket"),
  ("BEARING ", "Bearing"),
  ("BUSHING ", "Bushing"),
  ("SEAL ", "Seal"),
  ("GASKET ", "Gasket"),
  ("CABLE ASSY", "Cable Assembly"),
  ("CABLE ", "Cable"),
  ("BOARD ", "Board"),
  ("GEAR ", "Gear"),
  ("BELT ", "Belt"),
  ("SPINDLE ", "Spindle"),
  ("CAPACITOR ", "Capacitor"),
  ("CAP ", "Cap"),
  ("RELAY ", "Relay"),
  ("TRANSFORMER ", "Transformer"),
  ("CONTACTOR ", "Contactor"),
  ("RESISTOR ", "Resistor"),
  ("FUSE ", "Fuse"),
  ("PUMP ", "Pump"),
  ("WHEEL ", "Wheel"),
  ("PIN ", "Pin"),
  ("NIPPLE ", "Nipple"),
  ("ADAPTOR ", "Adaptor"),
  ("ADAPTER ", "Adapter"),
  ("BOOT ", "Boot"),
  ("END CAP", "End Cap"),
  ("DECAL ", "Decal"),
  ("STICKER ", "Label"),
  ("TORCH ", "Torch Part"),
  ("VALVE ", "Valve"),
  ("BODY ", "Body Part"),
  ("TUBE ", "Tube"),
  ("HEAD ", "Head"),
  ("SEAT ", "Seat"),
  ("SPACER ", "Spacer"),
  ("KIT ", "Kit"),
  ("ASSY ", "Assembly"),
  ("SCR ", "Screw/Fastener"),
  ("SLEEVE ", "Sleeve"),
  ("RUBBER ", "Rubber Part"),
  ("WELDING ", "Welding Part"),
  ("MOUNTING ", "Mounting Part"),
  ("FOOT ", "Foot Part"),
  ("PRESSURE ", "Pressure Part"),
  ("CASTING ", "Casting"),
  ("ROTOR ", "Rotor"),
  ("FERRULE ", "Ferrule"),
  ("CONE ", "Cone"),
  ("RACK ", "Rack/Rail"),
  ("STRIP ", "Strip Cutter"),
  ("ROLLER ", "Roller"),
  ("MESH ", "Mesh Screen"),
  ("CENTRALIZER", "Centralizer"),
  ("LEADS ", "Leads Package"),
  ("SLICE ", "Slice Plasma Part")]

/-- `_match_product_line`: longest (pre-sorted) code that equals the
uppercased description or prefixes it followed by a space. -/
def _match_product_line (desc : String) : Option (String × String) :=
  let du := pyStrip (upperStr desc)
  (productLineCodesSorted.find? (fun code => strStartsWith du (code ++ " ") || du == code)).bind pyGetPL

/-- The matched code itself (the same loop `decode_description` re-runs). -/
def matchedCodeOf (desc_upper : String) : Option String :=
  productLineCodesSorted.find? (fun code => strStartsWith desc_upper (code ++ " ") || desc_upper == code)

/-- `(\d{3})\s*X` of `_extract_diameter`. -/
def p3X : RE := reSeq [.grp 1 (reRepN reDigit 3), .star reSpaceC, reLit "X"]

/-- A fraction code `"a b"` compiled as `a\s+b\s*X`. -/
def fracXRE (code : String) : RE :=
  match splitOnSpace code with
  | [a, b] => reSeq [reLit a, rePlus reSpaceC, reLit b, .star reSpaceC, reLit "X"]
  | _ => reLit code

/-- A fraction code `"a b"` compiled as `\ba\s+b\b`. -/
def fracWordRE (code : String) : RE :=
  match splitOnSpace code with
  | [a, b] => reSeq [.wb, reLit a, rePlus reSpaceC, reLit b, .wb]
  | _ => reLit code

/-- `_extract_diameter`, in the source's fixed priority order.  The metric
branch reproduces a quirk of the source: it tests `code.replace(' ', r'\s*')`
with plain substring containment, so the needle contains a literal
backslash-s-star and the branch can never fire on catalog text. -/
def _extract_diameter (desc : String) : Option String :=
  let d := upperStr desc
  let dl := d.toList
  match ((reFindAll p3X dl).filterMap (fun r => lookupA DIAMETER_MAP (capS dl r.2.2 1))).head? with
  | some v => some v
  | none =>
  match FRACTION_DIAMETERS.find? (fun p => (reSearch (fracXRE p.1) dl).isSome) with
  | some p => some p.2
  | none =>
  match FRACTION_DIAMETERS.find? (fun p => (reSearch (fracWordRE p.1) dl).isSome) with
  | some p => some p.2
  | none =>
  match METRIC_DIAMETERS.find? (fun p => containsSub (replaceSub d " " "") (replaceSub p.1 " " "\\s*")) with
  | some p => some p.2
  | none => none

/-- `(\d+)F\s*SUF(?:\s|$)`-shaped package pattern. -/
def pkgF (suf : String) : RE :=
  reSeq [.grp 1 (rePlus reDigit), reLit "F", .star reSpaceC, reLit suf, .alt reSpaceC .eos]

/-- `(\d+)X(\d+)F\s*SUF(?:\s|$)`-shaped package pattern. -/
def pkgXF (suf : String) : RE :=
  reSeq [.grp 1 (rePlus reDigit), reLit "X", .grp 2 (rePlus reDigit), reLit "F",
    .star reSpaceC, reLit suf, .alt reSpaceC .eos]

/-- `PACKAGE_PATTERNS`: ordered (pattern, formatter) pairs. -/
def PACKAGE_PATTERNS : List (RE × (List Char → List ReCap → String)) := [
  (pkgF "DR", fun s cp => capS s cp 1 ++ " lb Drum"),
  (pkgF "MP", fun s cp => capS s cp 1 ++ " lb Pack"),
  (pkgF "OMP", fun s cp => capS s cp 1 ++ " lb Pack"),
  (pkgF "PSP", fun s cp => capS s cp 1 ++ " lb Plastic Spool"),
  (pkgF "FSP", fun s cp => capS s cp 1 ++ " lb Fiber Spool"),
  (pkgF "SP", fun s cp => capS s cp 1 ++ " lb Spool"),
  (pkgF "AWS", fun s cp => capS s cp 1 ++ " lb Spool"),
  (pkgF "WB", fun s cp => capS s cp 1 ++ " lb Wire Basket"),
  (pkgF "CL", fun s cp => capS s cp 1 ++ " lb Coil"),
  (pkgXF "HS", fun s cp => capS s cp 1 ++ "\" x " ++ capS s cp 2 ++ " lb Hermetically Sealed"),
  (pkgXF "CT", fun s cp => capS s cp 1 ++ "\" x " ++ capS s cp 2 ++ " lb Carton"),
  (reSeq [.grp 1 (rePlus reDigit), reLit "X", .grp 2 (rePlus reDigit), reLit "FT"],
    fun s cp => capS s cp 1 ++ "\" x " ++ capS s cp 2 ++ " lb Tube"),
  (reSeq [.grp 1 (rePlus reDigit), reLit "X", .grp 2 (rePlus reDigit), reLit "F",
      .star reSpaceC, reLit "VACPAK"],
    fun s cp => capS s cp 1 ++ "\" x " ++ capS s cp 2 ++ " lb Vacuum Pack"),
  (reSeq [.grp 1 (rePlus reDigit), reLit "KG", .star reSpaceC, reLit "CP"],
    fun s cp => capS s cp 1 ++ " kg Pack"),
  (reSeq [.grp 1 (rePlus reDigit), reLit "KG"], fun s cp => capS s cp 1 ++ " kg"),
  (reSeq [.grp 1 (rePlus reDigit), reLit "F",
      reOpt (reSeq [rePlus reSpaceC, rePlus reDigit, reOpt (reLit "F"),
        .star reSpaceC, .alt (reLit "PLT") (reLit "CT")]), .eos],
    fun s cp => capS s cp 1 ++ " lb"),
  (reSeq [reLit "X", .star reSpaceC, reLit "1F", .wb], fun _ _ => "1 lb Spool")]

/-- `\d{3}X(.+)` — everything after the first contiguous `NNNX`. -/
def pXpart1 : RE := reSeq [reRepN reDigit 3, reLit "X", .grp 1 (rePlus reAnyC)]

/-- `\d+\s+\d+X(.+)` — everything after a fraction-with-X. -/
def pXpart2 : RE :=
  reSeq [rePlus reDigit, rePlus reSpaceC, rePlus reDigit, reLit "X", .grp 1 (rePlus reAnyC)]

/-- First package pattern matching the suffix wins. -/
def firstPkg (s : List Char) : List (RE × (List Char → List ReCap → String)) → Option String
  | [] => none
  | (re, fmt) :: rest =>
      match reSearch re s with
      | some r => some (fmt s r.2.2)
      | none => firstPkg s rest

/-- `_extract_package`. -/
def _extract_package (desc : String) : Option String :=
  let d := (upperStr desc).toList
  let xpart := match reSearch pXpart1 d with
    | some r => some r
    | none => reSearch pXpart2 d
  match xpart with
  | none => none
  | some r => firstPkg (capS d r.2.2 1).toList PACKAGE_PATTERNS

/-- `_categorize_hardgood`: keyword-anywhere rules first, then starts-with. -/
def _categorize_hardgood (desc : String) : Option String :=
  let d := upperStr desc
  match HARDGOODS_CATEGORIES.find? (fun kc => kc.1.any (fun kw => containsSub d kw)) with
  | some kc => some kc.2
  | none => (STARTSWITH_CATEGORIES.find? (fun pc => strStartsWith d pc.1)).map (fun pc => pc.2)

/-- The short-code guard's size pattern `\d{3}\s*X|\d+\s+\d+\s*X`. -/
def pGuardSize : RE :=
  .alt (reSeq [reRepN reDigit 3, .star reSpaceC, reLit "X"])
    (reSeq [rePlus reDigit, rePlus reSpaceC, rePlus reDigit, .star reSpaceC, reLit "X"])

/-- Fallback `^(\d{3})\s+(.+)` for hardfacing/specialty wires; fires only
when the leading code is a known 3-digit diameter. -/
def pFb3 : RE := reSeq [.grp 1 (reRepN reDigit 3), rePlus reSpaceC, .grp 2 (rePlus reAnyC)]

/-- The 3-digit-prefix regex fallback of `decode_description`. -/
def fb3digit (desc : String) : Option String :=
  let du := (upperStr desc).toList
  match reMatch0 pFb3 du with
  | some m =>
      match lookupA DIAMETER_MAP (capS du m.2 1) with
      | some diam =>
          let remainder := pyStrip (capS du m.2 2)
          let line_parts := ["Hardfacing/Specialty Wire", diam] ++
            (match _extract_package desc with | some p => [p] | none => []) ++ [remainder]
          some (joinSep " | " line_parts)
      | none => none
  | none => none

/-- Fallback `^(\d+\s+\d+)\s+X\s+(.+)` for bare rods and brazing alloys. -/
def pFbFrac : RE :=
  reSeq [.grp 1 (reSeq [rePlus reDigit, rePlus reSpaceC, rePlus reDigit]),
    rePlus reSpaceC, reLit "X", rePlus reSpaceC, .grp 2 (rePlus reAnyC)]

/-- The fraction-prefix regex fallback of `decode_description`. -/
def fbFraction (desc : String) : Option String :=
  let du := (upperStr desc).toList
  match reMatch0 pFbFrac du with
  | some m =>
      match lookupA FRACTION_DIAMETERS (capS du m.2 1) with
      | some diam =>
          let remainder := pyStrip (capS du m.2 2)
          let prod_type :=
            if ["BARE", "BOROD", "ATB", "CTS", "BTS"].any (fun kw => containsSub remainder kw)
              then "Bare Rod / Brazing Alloy"
            else if containsSub remainder "HORSESHOE" then "Horseshoe Bare Rod"
            else "Rod / Filler"
          some (prod_type ++ " | " ++ diam ++ " | " ++ remainder)
      | none => none
  | none => none

/-- `^\d+\s+(DEG|DEGREE)\s+(HEAD|BODY)`. -/
def pVDeg : RE := reSeq [rePlus reDigit, rePlus reSpaceC,
  .alt (reLit "DEG") (reLit "DEGREE"), rePlus reSpaceC, .alt (reLit "HEAD") (reLit "BODY")]

/-- `^\d+\s+(AMP|AMPS)\s+`. -/
def pVAmp : RE := reSeq [rePlus reDigit, rePlus reSpaceC,
  .alt (reLit "AMP") (reLit "AMPS"), rePlus reSpaceC]

/-- `^\d+\s+(B\s+\d+\s+ELBOW|ELBOW)`. -/
def pVElbow : RE := reSeq [rePlus reDigit, rePlus reSpaceC,
  .alt (reSeq [reLit "B", rePlus reSpaceC, rePlus reDigit, rePlus reSpaceC, reLit "ELBOW"])
    (reLit "ELBOW")]

/-- `^\d+\s+(MFTN|MFTA|MFT)\s+HEATING`. -/
def pVHeat : RE := reSeq [rePlus reDigit, rePlus reSpaceC,
  reAltL [reLit "MFTN", reLit "MFTA", reLit "MFT"], rePlus reSpaceC, reLit "HEATING"]

/-- `^\d+\s+(HDN|HDA)\s+CUT`. -/
def pVCut : RE := reSeq [rePlus reDigit, rePlus reSpaceC,
  .alt (reLit "HDN") (reLit "HDA"), rePlus reSpaceC, reLit "CUT"]

/-- `^\d+\s+(GPP|GPN|GTB|GTS)\s+`. -/
def pVGas : RE := reSeq [rePlus reDigit, rePlus reSpaceC,
  reAltL [reLit "GPP", reLit "GPN", reLit "GTB", reLit "GTS"], rePlus reSpaceC]

/-- `^\d+\s+(LDS|LEADS)\s+`. -/
def pVLeads : RE := reSeq [rePlus reDigit, rePlus reSpaceC,
  .alt (reLit "LDS") (reLit "LEADS"), rePlus reSpaceC]

/-- `^\d+\s+M\s+\d+`. -/
def pVGunM : RE := reSeq [rePlus reDigit, rePlus reSpaceC, reLit "M", rePlus reSpaceC, rePlus reDigit]

/-- `^\d+\s+4M\s+`. -/
def pVGun4M : RE := reSeq [rePlus reDigit, rePlus reSpaceC, reLit "4M", rePlus reSpaceC]

/-- The ordered chain of numeric-prefix gas-apparatus fallbacks. -/
def fbVictor (desc : String) : Option String :=
  let du := (upperStr desc).toList
  if (reMatch0 pVDeg du).isSome then some ("Victor/Gas Apparatus | Torch Head | " ++ desc)
  else if (reMatch0 pVAmp du).isSome then some ("Plasma Consumable | " ++ desc)
  else if (reMatch0 pVElbow du).isSome then some ("Victor/Gas Apparatus | Elbow | " ++ desc)
  else if (reMatch0 pVHeat du).isSome then some ("Victor Heating Tip | " ++ desc)
  else if (reMatch0 pVCut du).isSome then some ("Victor Cutting Tip | " ++ desc)
  else if (reMatch0 pVGas du).isSome then some ("Victor Gas Tip | " ++ desc)
  else if (reMatch0 pVLeads du).isSome then some ("Torch Leads Package | " ++ desc)
  else if (reMatch0 pVGunM du).isSome || (reMatch0 pVGun4M du).isSome then
    some ("MIG Gun | " ++ desc)
  else none

/-- `decode_description`: the ordered first-success rule chain. -/
def decode_description (desc0 : String) : String :=
  let desc := pyStrip desc0
  if desc = "" then "" else
  match _match_product_line desc with
  | some ft =>
      let desc_upper := upperStr desc
      let guardResult : Option String :=
        match matchedCodeOf desc_upper with
        | some code =>
            if code.length ≤ 3 then
              if (reSearch pGuardSize (pyStrip (strDropN desc_upper code.length)).toList).isSome then none
              else match _categorize_hardgood desc with
                   | some hg => some (hg ++ " | " ++ desc)
                   | none => none
            else none
        | none => none
      match guardResult with
      | some r => r
      | none =>
          let prod_type :=
            if containsSub desc_upper "X36" && !(containsSub (upperStr ft.2) "TIG") then
              "TIG Rod" ++
                (let tl := ft.2.toList.dropWhile (fun c => c != '(')
                 if tl.isEmpty then "" else " " ++ String.mk tl)
            else ft.2
          let parts := [ft.1, prod_type] ++
            (match _extract_diameter desc with | some dm => [dm] | none => []) ++
            (match _extract_package desc with | some pk => [pk] | none => [])
          joinSep " | " parts
  | none =>
  match _categorize_hardgood desc with
  | some category => category ++ " | " ++ desc
  | none =>
  match fb3digit desc with
  | some r => r
  | none =>
  match fbFraction desc with
  | some r => r
  | none =>
  match fbVictor desc with
  | some r => r
  | none => desc

/-! ### Claims -/

/-- Claim C9: `parse_query("s6 wire 0.045")` extracts diameters `["045"]`,
its tokens contain the expansion tokens `"70S"` and `"6"`, and `"WIRE"` is
dropped as a stop word. -/
theorem C9_parse_example :
    (parse_query "s6 wire 0.045").diameters = ["045"] ∧
    "70S" ∈ (parse_query "s6 wire 0.045").tokens ∧
    "6" ∈ (parse_query "s6 wire 0.045").tokens ∧
    "WIRE" ∉ (parse_query "s6 wire 0.045").tokens := by
  decide

/-- Claim C4: what `decode_description` actually returns on the input
`"AA 7018 1 8X14X50FHS"`.  The longest-match rule picks the product-line code
`"AA 7018 1"` (Atom Arc 7018-1), so the output names `7018-1`/`E7018-1`,
not the `"Atom Arc 7018 | Stick Electrode (E7018) | ..."` that both the claim
and the function's own docstring state. -/
theorem C4_actual_output :
    decode_description "AA 7018 1 8X14X50FHS" =
      "Atom Arc 7018-1 | Stick Electrode (E7018-1) | 1/8\" | 14\" x 50 lb Hermetically Sealed" := by
  decide

/-- A trivially admissible stand-in similarity function, used to instantiate
the abstract rapidfuzz parameters in concrete witnesses. -/
def zeroSim : String → String → ℚ := fun _ _ => 0

theorem clampScore_of_bounds {q : ℚ} (h0 : 0 ≤ q) (h1 : q ≤ 100) : clampScore q = q := by
  unfold clampScore
  rw [min_eq_left h1, max_eq_left h0]

theorem tokRat_ne_zero {pq : ParsedQuery} {c : String}
    (hhit : hitCount pq c ≠ 0) : tokRatOf pq c ≠ 0 := by
  unfold tokRatOf
  rw [div_ne_zero_iff]
  constructor
  · exact_mod_cast hhit
  · have h1 : 0 < max pq.tokens.length 1 := lt_of_lt_of_le Nat.one_pos (le_max_right _ _)
    exact_mod_cast Nat.pos_iff_ne_zero.mp h1

unseal Rat.ofScientific Rat.mul Rat.inv Rat.add Rat.sub in
/-- Claim C1 (corrected): the counterexample.  The query `"wire"` consists of
one stop word, so its token list is empty, the token-ratio gate returns 0
before the exact-part-number override is reached — even though the normalized
query with spaces removed equals the part number `"WIRE"` with spaces
removed.  The claimed unconditional score of 100 does not hold. -/
theorem C1_cex :
    replaceSub (parse_query "wire").normalized " " "" = replaceSub (upperStr "WIRE") " " "" ∧
    _score_item zeroSim zeroSim (parse_query "wire") "" "WIRE" "" = 0 := by
  exact ⟨by decide, by decide⟩

/-- Claim C1 (amended): if at least one query token occurs in the row's
combined text (so the zero-token-ratio early return does not fire), then an
exact space-stripped case-insensitive part-number match forces the score to
exactly 100, for every similarity function and every other feature of the
query or row. -/
theorem C1_exact_pn_forces_100 (tsr pr : String → String → ℚ) (pq : ParsedQuery)
    (desc pn enr : String)
    (hhit : hitCount pq (combOf desc pn enr) ≠ 0)
    (heq : replaceSub pq.normalized " " "" = replaceSub (upperStr pn) " " "") :
    _score_item tsr pr pq desc pn enr = 100 := by
  have hne := tokRat_ne_zero (c := combOf desc pn enr) hhit
  unfold _score_item scorePreClamp
  rw [if_neg hne, if_pos heq]
  unfold clampScore
  norm_num

/-- Witness for C1: the query `"abc"` against a row whose part number is
`"ABC"` scores exactly 100. -/
theorem C1_witness :
    _score_item zeroSim zeroSim (parse_query "abc") "" "ABC" "" = 100 :=
  C1_exact_pn_forces_100 zeroSim zeroSim (parse_query "abc") "" "ABC" ""
    (by decide) (by decide)

theorem priceLe_total : ∀ a b : PriceEntry, priceLe a b = false → priceLe b a = true := by
  intro a b h
  simp only [priceLe, Bool.or_eq_false_iff, Bool.and_eq_false_iff,
    decide_eq_false_iff_not, not_lt] at h
  simp only [priceLe, Bool.or_eq_true, Bool.and_eq_true, decide_eq_true_eq]
  rcases h with ⟨h1, h2⟩
  rcases lt_or_eq_of_le h1 with hlt | heq
  · exact Or.inl hlt
  · rcases h2 with h2 | h2
    · exact absurd heq.symm h2
    · exact Or.inr ⟨heq, le_of_lt (not_le.mp h2)⟩

theorem priceLe_trans : ∀ a b c : PriceEntry,
    priceLe a b = true → priceLe b c = true → priceLe a c = true := by
  intro a b c h1 h2
  simp only [priceLe, Bool.or_eq_true, Bool.and_eq_true, decide_eq_true_eq] at h1 h2 ⊢
  rcases h1 with h1 | ⟨h1e, h1t⟩
  · rcases h2 with h2 | ⟨h2e, h2t⟩
    · exact Or.inl (lt_trans h1 h2)
    · exact Or.inl (h2e ▸ h1)
  · rcases h2 with h2 | ⟨h2e, h2t⟩
    · exact Or.inl (h1e ▸ h2)
    · exact Or.inr ⟨h1e.trans h2e, le_trans h1t h2t⟩

theorem priceLe_refl (a : PriceEntry) : priceLe a a = true := by
  simp [priceLe]

theorem sorted_head_min (l : List PriceEntry) :
    ∀ b t, isortBy priceLe l = b :: t → ∀ e ∈ isortBy priceLe l, priceLe b e = true := by
  intro b t hbt e he
  have hp := pairwise_isortBy priceLe priceLe_total priceLe_trans l
  rw [hbt] at hp he
  rcases List.mem_cons.mp he with h | h
  · rw [h]; exact priceLe_refl b
  · exact (List.pairwise_cons.mp hp).1 e h

/-- The concrete master row of C2's scenario: Master List $10, Master Tier $9. -/
def mRowC2 : MasterRow := ⟨"P", "Widget", "EA", none, none, "", some 10, some 9, "m.xlsx"⟩

/-- The concrete end-user row of C2's scenario: End User "Acme" $8.50. -/
def eRowC2 : SpecialRow := ⟨"P", "Widget", "EA", some 8.5, 0, 0, "Acme", "Acme", "", "", "e.xlsx"⟩

unseal Rat.ofScientific Rat.mul Rat.inv Rat.add Rat.sub in
/-- Claim C2: whenever `get_pricing` returns at least one entry, a best entry
exists, its precedence rank is minimal over the whole list, and among entries
of that minimal rank it has the minimal total; on the concrete scenario
(Master List $10, Master Tier $9, End User "Acme" $8.50, no filters) the
sorted list is [End User $8.50, Master Tier $9, Master List $10] and the best
entry is the End User $8.50 one. -/
theorem C2_precedence_invariant :
    (∀ (pn : String) (m : List MasterRow) (eu lo : List SpecialRow)
        (seu slo : Option String),
      (get_pricing pn m eu lo seu slo).all_prices ≠ [] →
      ∃ b, (get_pricing pn m eu lo seu slo).best_price = some b ∧
        ∀ e ∈ (get_pricing pn m eu lo seu slo).all_prices,
          precRank b.source ≤ precRank e.source ∧
          (precRank e.source = precRank b.source → b.total ≤ e.total)) ∧
    ((get_pricing "P" [mRowC2] [eRowC2] [] none none).all_prices.map
        (fun e => (e.source, e.total)) =
          [("End User", 8.5), ("Master Tier", 9), ("Master List", 10)] ∧
     (get_pricing "P" [mRowC2] [eRowC2] [] none none).best_price.map
        (fun e => (e.source, e.total)) = some ("End User", 8.5)) := by
  constructor
  · intro pn m eu lo seu slo hne
    have hall : (get_pricing pn m eu lo seu slo).all_prices =
        isortBy priceLe (collectPricing pn m eu lo seu slo).all_prices := rfl
    have hbest : (get_pricing pn m eu lo seu slo).best_price =
        (isortBy priceLe (collectPricing pn m eu lo seu slo).all_prices).head? := rfl
    rcases hx : isortBy priceLe (collectPricing pn m eu lo seu slo).all_prices with _ | ⟨b, t⟩
    · rw [hall, hx] at hne
      exact absurd rfl hne
    · refine ⟨b, ?_, ?_⟩
      · rw [hbest, hx]
        rfl
      · intro e he
        rw [hall, hx] at he
        have hle := sorted_head_min _ b t hx e (by rw [hx]; exact he)
        simp only [priceLe, Bool.or_eq_true, Bool.and_eq_true, decide_eq_true_eq] at hle
        rcases hle with h | ⟨h1, h2⟩
        · exact ⟨le_of_lt h, fun hc => absurd (hc ▸ h) (lt_irrefl _)⟩
        · exact ⟨le_of_eq h1, fun _ => h2⟩
  · exact ⟨by decide, by decide⟩

unseal Rat.ofScientific Rat.mul Rat.inv Rat.add Rat.sub in
/-- Witness for C2: the invariant applied to the concrete scenario. -/
theorem C2_witness :
    ∃ b, (get_pricing "P" [mRowC2] [eRowC2] [] none none).best_price = some b ∧
      ∀ e ∈ (get_pricing "P" [mRowC2] [eRowC2] [] none none).all_prices,
        precRank b.source ≤ precRank e.source ∧
        (precRank e.source = precRank b.source → b.total ≤ e.total) :=
  C2_precedence_invariant.1 "P" [mRowC2] [eRowC2] [] none none (by decide)

/-- Claim C3 (corrected): the counterexample.  The input `"QQQQ "` matches no
product line, no hardgoods rule and no regex fallback, yet `decode` returns
`"QQQQ"` — the *stripped* input — rather than the input unchanged. -/
theorem C3_cex :
    _match_product_line "QQQQ" = none ∧ _categorize_hardgood "QQQQ" = none ∧
    fb3digit "QQQQ" = none ∧ fbFraction "QQQQ" = none ∧ fbVictor "QQQQ" = none ∧
    decode_description "QQQQ " = "QQQQ" ∧ ("QQQQ " : String) ≠ "QQQQ" := by
  exact ⟨by decide, by decide, by decide, by decide, by decide, by decide, by decide⟩

/-- Claim C3 (amended): whenever the (stripped) input matches no product-line
code, no hardgoods rule, and no regex fallback, `decode` returns the input
stripped of surrounding whitespace — hence the unchanged input whenever it
carries no surrounding whitespace; and `decode` is a pure deterministic
function: equal inputs always yield equal outputs. -/
theorem C3_identity_on_no_match :
    (∀ x : String,
      _match_product_line (pyStrip x) = none →
      _categorize_hardgood (pyStrip x) = none →
      fb3digit (pyStrip x) = none →
      fbFraction (pyStrip x) = none →
      fbVictor (pyStrip x) = none →
      decode_description x = pyStrip x) ∧
    (∀ x y : String, x = y → decode_description x = decode_description y) := by
  constructor
  · intro x h1 h2 h3 h4 h5
    simp only [decode_description]
    by_cases he : pyStrip x = ""
    · rw [if_pos he, he]
    · rw [if_neg he]
      simp only [h1, h2, h3, h4, h5]
  · intro x y h
    rw [h]

/-- Witness for C3: decoding the unmatched input `"QQQQ "` yields its strip. -/
theorem C3_witness : decode_description "QQQQ " = "QQQQ" :=
  C3_identity_on_no_match.1 "QQQQ " (by decide) (by decide) (by decide) (by decide) (by decide)

/-- Claim C5: `search_products` returns at most `max_results` rows, and every
returned row's score is at least `min_score` — for every query, partition,
cap, threshold and similarity functions. -/
theorem C5_cap_and_threshold (tsr pr : String → String → ℚ) (query : String)
    (master : List Row) (cap : Nat) (th : ℚ) (useE : Bool) :
    (search_products tsr pr query master cap th useE).length ≤ cap ∧
    ∀ sr ∈ search_products tsr pr query master cap th useE, th ≤ sr.match_score := by
  unfold search_products
  split
  · simp
  · split
    · simp
    · constructor
      · rw [List.length_take]
        exact min_le_left _ _
      · intro sr hsr
        have h1 := (List.take_sublist _ _).subset hsr
        rw [List.mem_reverse, mem_isortBy] at h1
        exact of_decide_eq_true (List.mem_filter.mp h1).2

unseal Rat.ofScientific Rat.mul Rat.inv Rat.add Rat.sub in
/-- Witness for C5: on a one-row partition the returned row meets the
threshold (its concrete score is 68). -/
theorem C5_witness :
    (0 : ℚ) ≤ (⟨⟨"ABC", "", "", "w"⟩, 68⟩ : ScoredRow).match_score :=
  (C5_cap_and_threshold zeroSim zeroSim "ABC" [⟨"ABC", "", "", "w"⟩] 5 0 true).2
    ⟨⟨"ABC", "", "", "w"⟩, 68⟩ (by decide)

def masterEntriesOf (r : MasterRow) : List PriceEntry :=
  (match r.list_price with
   | some v => if 0 < v then [mkPriceEntry v "Master List" 0 "" r.source_file] else []
   | none => []) ++
  (match r.tier_price with
   | some v => if 0 < v then [mkPriceEntry v "Master Tier" 0 "" r.source_file] else []
   | none => [])

def euEntriesOf (sel : Option String) (r : SpecialRow) : List PriceEntry :=
  if !(euKeep sel r) then [] else
  match r.price with
  | some v => if 0 < v then
      [mkPriceEntry v "End User" (r.alloy_surcharge + r.tariff_surcharge) (euContext r) r.source_file]
      else []
  | none => []

def locEntriesOf (sel : Option String) (r : SpecialRow) : List PriceEntry :=
  if !(locKeep sel r) then [] else
  match r.price with
  | some v => if 0 < v then
      [mkPriceEntry v "Location Special" (r.alloy_surcharge + r.tariff_surcharge) (locContext r) r.source_file]
      else []
  | none => []

theorem stepMaster_all_prices (res : ProductPricing) (r : MasterRow) :
    (stepMaster res r).all_prices = res.all_prices ++ masterEntriesOf r := by
  unfold stepMaster masterEntriesOf
  rcases r.list_price with _ | v <;> rcases r.tier_price with _ | w <;> dsimp only
  · split <;> simp
  · by_cases hw : 0 < w
    · rw [if_pos hw, if_pos hw]
      split <;> simp
    · rw [if_neg hw, if_neg hw]
      split <;> simp
  · by_cases hv : 0 < v
    · rw [if_pos hv, if_pos hv]
      split <;> simp
    · rw [if_neg hv, if_neg hv]
      split <;> simp
  · by_cases hv : 0 < v <;> by_cases hw : 0 < w
    · rw [if_pos hv, if_pos hv, if_pos hw, if_pos hw]
      split <;> simp
    · rw [if_pos hv, if_pos hv, if_neg hw, if_neg hw]
      split <;> simp
    · rw [if_neg hv, if_neg hv, if_pos hw, if_pos hw]
      split <;> simp
    · rw [if_neg hv, if_neg hv, if_neg hw, if_neg hw]
      split <;> simp

theorem stepEU_all_prices (sel : Option String) (res : ProductPricing) (r : SpecialRow) :
    (stepEU sel res r).all_prices = res.all_prices ++ euEntriesOf sel r := by
  unfold stepEU euEntriesOf
  split
  · simp
  · rcases r.price with _ | v <;> dsimp only
    · split <;> simp
    · by_cases hv : 0 < v
      · rw [if_pos hv, if_pos hv]
        split <;> simp
      · rw [if_neg hv, if_neg hv]
        split <;> simp

theorem stepLoc_all_prices (sel : Option String) (res : ProductPricing) (r : SpecialRow) :
    (stepLoc sel res r).all_prices = res.all_prices ++ locEntriesOf sel r := by
  unfold stepLoc locEntriesOf
  split
  · simp
  · rcases r.price with _ | v <;> dsimp only
    · split <;> simp
    · by_cases hv : 0 < v
      · rw [if_pos hv, if_pos hv]
        split <;> simp
      · rw [if_neg hv, if_neg hv]
        split <;> simp

theorem foldM_all_prices : ∀ (rows : List MasterRow) (res : ProductPricing),
    (rows.foldl stepMaster res).all_prices = res.all_prices ++ rows.flatMap masterEntriesOf := by
  intro rows
  induction rows with
  | nil => intro res; simp
  | cons r rest ih =>
      intro res
      rw [List.foldl_cons, ih, stepMaster_all_prices]
      simp [List.flatMap_cons, List.append_assoc]

theorem foldEU_all_prices (sel : Option String) :
    ∀ (rows : List SpecialRow) (res : ProductPricing),
    (rows.foldl (stepEU sel) res).all_prices = res.all_prices ++ rows.flatMap (euEntriesOf sel) := by
  intro rows
  induction rows with
  | nil => intro res; simp
  | cons r rest ih =>
      intro res
      rw [List.foldl_cons, ih, stepEU_all_prices]
      simp [List.flatMap_cons, List.append_assoc]

theorem foldLoc_all_prices (sel : Option String) :
    ∀ (rows : List SpecialRow) (res : ProductPricing),
    (rows.foldl (stepLoc sel) res).all_prices = res.all_prices ++ rows.flatMap (locEntriesOf sel) := by
  intro rows
  induction rows with
  | nil => intro res; simp
  | cons r rest ih =>
      intro res
      rw [List.foldl_cons, ih, stepLoc_all_prices]
      simp [List.flatMap_cons, List.append_assoc]

theorem collect_all_prices (pn : String) (m : List MasterRow) (eu lo : List SpecialRow)
    (seu slo : Option String) :
    (collectPricing pn m eu lo seu slo).all_prices =
      ((m.filter (fun r => r.part_number == pyStrip pn)).flatMap masterEntriesOf ++
       (eu.filter (fun r => r.part_number == pyStrip pn)).flatMap (euEntriesOf seu)) ++
      (lo.filter (fun r => r.part_number == pyStrip pn)).flatMap (locEntriesOf slo) := by
  unfold collectPricing
  rw [foldLoc_all_prices, foldEU_all_prices, foldM_all_prices]
  rfl

theorem flatMap_nil_of (l : List α) (f : α → List β) (h : ∀ x ∈ l, f x = []) :
    l.flatMap f = [] := by
  induction l with
  | nil => rfl
  | cons x xs ih =>
      rw [List.flatMap_cons, h x (List.mem_cons_self x xs), List.nil_append]
      exact ih (fun y hy => h y (List.mem_cons_of_mem x hy))

theorem masterEntriesOf_nil (r : MasterRow)
    (hl : ∀ v, r.list_price = some v → v ≤ 0)
    (ht : ∀ v, r.tier_price = some v → v ≤ 0) : masterEntriesOf r = [] := by
  unfold masterEntriesOf
  rcases hlp : r.list_price with _ | v <;> rcases htp : r.tier_price with _ | w <;> dsimp only
  · rfl
  · rw [if_neg (not_lt.mpr (ht w htp))]; rfl
  · rw [if_neg (not_lt.mpr (hl v hlp))]; rfl
  · rw [if_neg (not_lt.mpr (hl v hlp)), if_neg (not_lt.mpr (ht w htp))]; rfl

theorem euEntriesOf_nil (sel : Option String) (r : SpecialRow)
    (hp : ∀ v, r.price = some v → v ≤ 0) : euEntriesOf sel r = [] := by
  unfold euEntriesOf
  split
  · rfl
  · rcases hpp : r.price with _ | v
    case none => rfl
    case some =>
      dsimp only
      rw [if_neg (not_lt.mpr (hp v hpp))]

theorem locEntriesOf_nil (sel : Option String) (r : SpecialRow)
    (hp : ∀ v, r.price = some v → v ≤ 0) : locEntriesOf sel r = [] := by
  unfold locEntriesOf
  split
  · rfl
  · rcases hpp : r.price with _ | v
    case none => rfl
    case some =>
      dsimp only
      rw [if_neg (not_lt.mpr (hp v hpp))]

theorem masterEntriesOf_pos (r : MasterRow) : ∀ e ∈ masterEntriesOf r, 0 < e.price := by
  intro e he
  unfold masterEntriesOf at he
  rcases List.mem_append.mp he with h | h
  · rcases hlp : r.list_price with _ | v
    · rw [hlp] at h; simp at h
    · rw [hlp] at h
      dsimp only at h
      by_cases hv : 0 < v
      · rw [if_pos hv, List.mem_singleton] at h
        rw [h]
        exact hv
      · rw [if_neg hv] at h; simp at h
  · rcases htp : r.tier_price with _ | w
    · rw [htp] at h; simp at h
    · rw [htp] at h
      dsimp only at h
      by_cases hw : 0 < w
      · rw [if_pos hw, List.mem_singleton] at h
        rw [h]
        exact hw
      · rw [if_neg hw] at h; simp at h

theorem euEntriesOf_pos (sel : Option String) (r : SpecialRow) :
    ∀ e ∈ euEntriesOf sel r, 0 < e.price := by
  intro e he
  unfold euEntriesOf at he
  split at he
  · simp at he
  · rcases hpp : r.price with _ | v
    · rw [hpp] at he; simp at he
    · rw [hpp] at he
      dsimp only at he
      by_cases hv : 0 < v
      · rw [if_pos hv, List.mem_singleton] at he
        rw [he]
        exact hv
      · rw [if_neg hv] at he; simp at he

theorem locEntriesOf_pos (sel : Option String) (r : SpecialRow) :
    ∀ e ∈ locEntriesOf sel r, 0 < e.price := by
  intro e he
  unfold locEntriesOf at he
  split at he
  · simp at he
  · rcases hpp : r.price with _ | v
    · rw [hpp] at he; simp at he
    · rw [hpp] at he
      dsimp only at he
      by_cases hv : 0 < v
      · rw [if_pos hv, List.mem_singleton] at he
        rw [he]
        exact hv
      · rw [if_neg hv] at he; simp at he

/-- Claim C6: when no master, end-user or location row carries a strictly
positive price, `get_pricing` returns an empty price list and no best entry;
and in general every entry it ever produces has a strictly positive price. -/
theorem C6_no_positive_prices :
    (∀ (pn : String) (m : List MasterRow) (eu lo : List SpecialRow) (seu slo : Option String),
      (∀ r ∈ m, (∀ v, r.list_price = some v → v ≤ 0) ∧ (∀ v, r.tier_price = some v → v ≤ 0)) →
      (∀ r ∈ eu, ∀ v, r.price = some v → v ≤ 0) →
      (∀ r ∈ lo, ∀ v, r.price = some v → v ≤ 0) →
      (get_pricing pn m eu lo seu slo).all_prices = [] ∧
      (get_pricing pn m eu lo seu slo).best_price = none) ∧
    (∀ (pn : String) (m : List MasterRow) (eu lo : List SpecialRow) (seu slo : Option String),
      ∀ e ∈ (get_pricing pn m eu lo seu slo).all_prices, 0 < e.price) := by
  constructor
  · intro pn m eu lo seu slo hm he hl
    have hc : (collectPricing pn m eu lo seu slo).all_prices = [] := by
      rw [collect_all_prices,
        flatMap_nil_of _ _ (fun r hr =>
          masterEntriesOf_nil r (hm r (List.mem_filter.mp hr).1).1 (hm r (List.mem_filter.mp hr).1).2),
        flatMap_nil_of _ _ (fun r hr => euEntriesOf_nil seu r (he r (List.mem_filter.mp hr).1)),
        flatMap_nil_of _ _ (fun r hr => locEntriesOf_nil slo r (hl r (List.mem_filter.mp hr).1))]
      rfl
    constructor
    · show isortBy priceLe (collectPricing pn m eu lo seu slo).all_prices = []
      rw [hc]
      rfl
    · show (isortBy priceLe (collectPricing pn m eu lo seu slo).all_prices).head? = none
      rw [hc]
      rfl
  · intro pn m eu lo seu slo e he
    have h0 : (get_pricing pn m eu lo seu slo).all_prices =
        isortBy priceLe (collectPricing pn m eu lo seu slo).all_prices := rfl
    rw [h0, mem_isortBy, collect_all_prices] at he
    rcases List.mem_append.mp he with h | h
    · rcases List.mem_append.mp h with h | h
      · rcases List.mem_flatMap.mp h with ⟨r, _, hr⟩
        exact masterEntriesOf_pos r e hr
      · rcases List.mem_flatMap.mp h with ⟨r, _, hr⟩
        exact euEntriesOf_pos seu r e hr
    · rcases List.mem_flatMap.mp h with ⟨r, _, hr⟩
      exact locEntriesOf_pos slo r e hr

/-- A master row whose only price is non-positive, for the C6 witness. -/
def mRowNegC6 : MasterRow := ⟨"P", "d", "u", none, none, "", some (-3), none, "f"⟩

unseal Rat.ofScientific Rat.mul Rat.inv Rat.add Rat.sub in
/-- Witness for C6: a part with only a negative list price resolves to an
empty price list and no best entry; and a concretely produced entry (the
End User $8.50 one of the C2 scenario) has positive price. -/
theorem C6_witness :
    ((get_pricing "P" [mRowNegC6] [] [] none none).all_prices = [] ∧
     (get_pricing "P" [mRowNegC6] [] [] none none).best_price = none) ∧
    0 < (mkPriceEntry 8.5 "End User" 0 "Acme" "e.xlsx").price :=
  ⟨C6_no_positive_prices.1 "P" [mRowNegC6] [] [] none none
    (by
      intro r hr
      rw [List.mem_singleton] at hr
      subst hr
      constructor
      · intro v hv
        simp only [mRowNegC6, Option.some.injEq] at hv
        rw [← hv]
        norm_num
      · intro v hv
        simp only [mRowNegC6] at hv
        simp at hv)
    (by intro r hr; simp at hr)
    (by intro r hr; simp at hr),
   C6_no_positive_prices.2 "P" [mRowC2] [eRowC2] [] none none
     (mkPriceEntry 8.5 "End User" 0 "Acme" "e.xlsx") (by decide)⟩

theorem scorePreClamp_diam_update (tsr pr : String → String → ℚ) (pq : ParsedQuery)
    (desc pn enr : String) (ds : List String)
    (hhit : hitCount pq (combOf desc pn enr) ≠ 0)
    (hov : ¬ replaceSub pq.normalized " " "" = replaceSub (upperStr pn) " " "") :
    scorePreClamp tsr pr { pq with diameters := ds } desc pn enr =
      scorePreClamp tsr pr pq desc pn enr
        - diamAdjOf pq.diameters (combOf desc pn enr)
        + diamAdjOf ds (combOf desc pn enr) := by
  have hne := tokRat_ne_zero (c := combOf desc pn enr) hhit
  have hup : scorePreClamp tsr pr { pq with diameters := ds } desc pn enr =
      (if tokRatOf pq (combOf desc pn enr) = 0 then 0
       else if replaceSub pq.normalized " " "" = replaceSub (upperStr pn) " " "" then 100
       else baseScore tsr pr pq desc pn enr + diamAdjOf ds (combOf desc pn enr)
         + alloyAdjOf pq.alloys (combOf desc pn enr) + pkgAdjOf pq.pkg_weights (combOf desc pn enr)
         + typeAdjOf pq.pkg_types (combOf desc pn enr)
         + (if tokRatOf pq (combOf desc pn enr) = 1 then (8 : ℚ) else 0)) := rfl
  have horig : scorePreClamp tsr pr pq desc pn enr =
      (if tokRatOf pq (combOf desc pn enr) = 0 then 0
       else if replaceSub pq.normalized " " "" = replaceSub (upperStr pn) " " "" then 100
       else baseScore tsr pr pq desc pn enr + diamAdjOf pq.diameters (combOf desc pn enr)
         + alloyAdjOf pq.alloys (combOf desc pn enr) + pkgAdjOf pq.pkg_weights (combOf desc pn enr)
         + typeAdjOf pq.pkg_types (combOf desc pn enr)
         + (if tokRatOf pq (combOf desc pn enr) = 1 then (8 : ℚ) else 0)) := rfl
  rw [hup, horig, if_neg hne, if_neg hne, if_neg hov, if_neg hov]
  ring

unseal Rat.ofScientific Rat.mul Rat.inv Rat.add Rat.sub in
/-- Claim C7 (corrected): the counterexample.  With the row ("X", part number
"ABC") and the parsed query "abc", the exact-part-number override pins every
score at 100, so extracting the present diameter "A" does not raise the score
by 15, and extracting the absent diameter "9" does not lower it by 10. -/
theorem C7_cex :
    (parse_query "abc").diameters = [] ∧
    containsSub (combOf "X" "ABC" "") "A" = true ∧
    containsSub (combOf "X" "ABC" "") "9" = false ∧
    ¬(_score_item zeroSim zeroSim { parse_query "abc" with diameters := ["A"] } "X" "ABC" "" =
        _score_item zeroSim zeroSim (parse_query "abc") "X" "ABC" "" + 15) ∧
    ¬(_score_item zeroSim zeroSim { parse_query "abc" with diameters := ["9"] } "X" "ABC" "" =
        _score_item zeroSim zeroSim (parse_query "abc") "X" "ABC" "" - 10) := by
  exact ⟨by decide, by decide, by decide, by decide, by decide⟩

/-- Claim C7 (amended): holding the query body and the row fixed, when the
token-ratio gate passes, the exact-part-number override does not apply, and
the unclamped score stays inside the clamp window (between 10 and 85, so that
neither the `+15` nor the `-10` result is clamped), extracting a diameter
present in the combined text raises the score by exactly 15, and extracting
only diameters absent from it lowers the score by exactly 10. -/
theorem C7_diameter_delta (tsr pr : String → String → ℚ) (pq : ParsedQuery)
    (desc pn enr : String) (ds : List String)
    (hd : pq.diameters = []) (hds : ds ≠ [])
    (hhit : hitCount pq (combOf desc pn enr) ≠ 0)
    (hov : ¬ replaceSub pq.normalized " " "" = replaceSub (upperStr pn) " " "")
    (hlo : 10 ≤ scorePreClamp tsr pr pq desc pn enr)
    (hhi : scorePreClamp tsr pr pq desc pn enr ≤ 85) :
    ((ds.any (fun d => containsSub (combOf desc pn enr) d) = true →
        _score_item tsr pr { pq with diameters := ds } desc pn enr =
          _score_item tsr pr pq desc pn enr + 15) ∧
     (ds.any (fun d => containsSub (combOf desc pn enr) d) = false →
        _score_item tsr pr { pq with diameters := ds } desc pn enr =
          _score_item tsr pr pq desc pn enr - 10)) := by
  have hkey := scorePreClamp_diam_update tsr pr pq desc pn enr ds hhit hov
  have hz : diamAdjOf pq.diameters (combOf desc pn enr) = 0 := by
    rw [hd]; rfl
  have hdse : ds.isEmpty = false := by
    cases ds with
    | nil => exact absurd rfl hds
    | cons a t => rfl
  constructor
  · intro hpres
    have h15 : diamAdjOf ds (combOf desc pn enr) = 15 := by
      simp [diamAdjOf, hdse, hpres]
    have hsum : scorePreClamp tsr pr { pq with diameters := ds } desc pn enr =
        scorePreClamp tsr pr pq desc pn enr + 15 := by
      rw [hkey, hz, h15]; ring
    unfold _score_item
    rw [hsum, clampScore_of_bounds (by linarith) (by linarith),
        clampScore_of_bounds (by linarith) (by linarith)]
  · intro habs
    have h10 : diamAdjOf ds (combOf desc pn enr) = -10 := by
      simp [diamAdjOf, hdse, habs]
    have hsum : scorePreClamp tsr pr { pq with diameters := ds } desc pn enr =
        scorePreClamp tsr pr pq desc pn enr - 10 := by
      rw [hkey, hz, h10]; ring
    unfold _score_item
    rw [hsum, clampScore_of_bounds (by linarith) (by linarith),
        clampScore_of_bounds (by linarith) (by linarith)]

unseal Rat.ofScientific Rat.mul Rat.inv Rat.add Rat.sub in
/-- Witness for C7: for the query "AB" against the row ("AB CD", "Q"), whose
unclamped score is 60.5, extracting the present diameter "CD" yields exactly
60.5 + 15. -/
theorem C7_witness :
    _score_item zeroSim zeroSim { parse_query "AB" with diameters := ["CD"] } "AB CD" "Q" "" =
      _score_item zeroSim zeroSim (parse_query "AB") "AB CD" "Q" "" + 15 :=
  (C7_diameter_delta zeroSim zeroSim (parse_query "AB") "AB CD" "Q" "" ["CD"]
    (by decide) (by decide) (by decide) (by decide) (by decide) (by decide)).1 (by decide)

unseal Rat.ofScientific Rat.mul Rat.inv Rat.add Rat.sub in
/-- Claim C8 (corrected): the counterexample.  Two rows identical in every
scoring field (so they tie at score 68 for any similarity function) but
distinguished by their other columns come back in *reversed* input order:
pandas' descending sort reverses a stable ascending argsort. -/
theorem C8_cex :
    (search_products zeroSim zeroSim "D" [⟨"D", "P", "", "r0"⟩, ⟨"D", "P", "", "r1"⟩] 12 30 true).map
        (fun sr => (sr.row.tag, sr.match_score)) = [("r1", 68), ("r0", 68)] ∧
    ("r0" : String) ≠ "r1" := by
  exact ⟨by decide, by decide⟩

/-- Claim C8 (amended): the rows `search_products` returns are sorted in
non-increasing order of score (before and after truncation to the cap); the
tie order among equal scores is the reverse of the input order, not the
original order. -/
theorem C8_sorted_descending (tsr pr : String → String → ℚ) (query : String)
    (master : List Row) (cap : Nat) (th : ℚ) (useE : Bool) :
    (search_products tsr pr query master cap th useE).Pairwise
      (fun a b => b.match_score ≤ a.match_score) := by
  unfold search_products
  split
  · simp
  · split
    · simp
    · apply List.Pairwise.sublist (List.take_sublist _ _)
      rw [List.pairwise_reverse]
      have hp := pairwise_isortBy scoreLeB
        (fun a b h => by
          simp only [scoreLeB, decide_eq_false_iff_not, not_le] at h
          simp only [scoreLeB, decide_eq_true_eq]
          exact le_of_lt h)
        (fun a b c h1 h2 => by
          simp only [scoreLeB, decide_eq_true_eq] at h1 h2 ⊢
          exact le_trans h1 h2)
        ((scoreRows tsr pr (parse_query query) master useE).filter
          (fun sr => decide (th ≤ sr.match_score)))
      refine hp.imp ?_
      intro a b h
      simpa only [scoreLeB, decide_eq_true_eq] using h

/-- Claim C10: `search_products` returns the empty result, with no error,
whenever the partition is empty, or the query is empty or all whitespace, or
the parsed query's token list is empty (for example a stop-word-only query) —
regardless of how the rows would have scored. -/
theorem C10_empty_cases (tsr pr : String → String → ℚ) (query : String)
    (master : List Row) (cap : Nat) (th : ℚ) (useE : Bool)
    (h : master = [] ∨ pyStrip query = "" ∨ (parse_query query).tokens = []) :
    search_products tsr pr query master cap th useE = [] := by
  unfold search_products
  rcases h with h | h | h
  · subst h; simp
  · rw [h]; simp
  · split
    · rfl
    · split
      · rfl
      · rename_i h2
        rw [h] at h2
        simp at h2

/-- Witness for C10: the stop-word-only query "the" returns no rows even on a
non-empty partition. -/
theorem C10_witness :
    search_products zeroSim zeroSim "the" [⟨"D", "P", "", "r0"⟩] 12 0 true = [] :=
  C10_empty_cases zeroSim zeroSim "the" [⟨"D", "P", "", "r0"⟩] 12 0 true
    (Or.inr (Or.inr (by decide)))
